import Mathlib

/-!
# Verification of the Tuya TS0601 TRV datapoint-to-cluster translation layer

Shallow embedding of `zhaquirks/tuya/ts0601_trv.py` (Siterwell / Moes /
ZONNSMART / Saswell thermostatic-valve quirks) and proofs about its
derived-state calculators, reverse mappers and update dispatchers.

Conventions of the embedding:
* Python numbers are modelled by `PyQ`, an exact unnormalized rational
  (`num / den`, denominator kept positive by construction).  Integer values
  have denominator 1; Python's true division `x / k` keeps the exact value.
* Attribute caches (`zigpy`'s `_attr_cache`, one per cluster) are modelled as
  one association list keyed by (cluster slot, attribute id); `cset` prepends
  and `cget` takes the first match, i.e. last write wins.
* `_update_attribute` both stores into the cache and notifies cluster
  listeners; we record every such update in an `events` trace.
* Python exceptions inside bus listeners (`TypeError` from `int(None)` etc.)
  are modelled with `Except`; `zigpy`'s `listener_event` catches and logs
  them, which the dispatchers mirror by keeping the pre-handler state.
-/

/-- Exact unnormalized rational: `num / den`, `den` positive by construction
at every use site (we only ever divide by 10 and 100). -/
structure PyQ where
  num : Int
  den : Int
  deriving DecidableEq, Repr

namespace PyQ

/-- Embed a Python `int`. -/
def ofInt (n : Int) : PyQ := ⟨n, 1⟩

/-- Python `q * k` for an integer `k`. -/
def mulInt (q : PyQ) (k : Int) : PyQ := ⟨q.num * k, q.den⟩

/-- Python true division `q / k` for a positive integer `k` (exact). -/
def divInt (q : PyQ) (k : Int) : PyQ := ⟨q.num, q.den * k⟩

/-- Python `q + k` for an integer `k`. -/
def addInt (q : PyQ) (k : Int) : PyQ := ⟨q.num + k * q.den, q.den⟩

/-- Python `int(q)`: truncation toward zero (denominator positive). -/
def toInt (q : PyQ) : Int := Int.tdiv q.num q.den

/-- Python `round(q)` to an integer: round half to even (denominator
positive).  For the argument ranges occurring here this coincides with
CPython's float rounding, because `n / 10` and `n / 100` hit exactly
representable halves only at exact ties. -/
def round (q : PyQ) : Int :=
  let f := Int.fdiv q.num q.den
  let r2 := 2 * (q.num - f * q.den)
  if r2 < q.den then f
  else if q.den < r2 then f + 1
  else if f % 2 = 0 then f else f + 1

/-- Python numeric equality `q == z` against an integer (cross-multiplied,
denominator positive). -/
def eqInt (q : PyQ) (z : Int) : Prop := q.num = z * q.den

instance (q : PyQ) (z : Int) : Decidable (q.eqInt z) := by
  unfold eqInt; infer_instance

/-- Python truthiness of a number: nonzero. -/
def truthy (q : PyQ) : Prop := q.num ≠ 0

instance (q : PyQ) : Decidable q.truthy := by
  unfold truthy; infer_instance

end PyQ

/-- The Python exceptions this code can raise while handling an update. -/
inductive PyErr where
  | typeError
  deriving DecidableEq, Repr

instance {ε α : Type} [DecidableEq ε] [DecidableEq α] : DecidableEq (Except ε α) :=
  fun x y =>
    match x, y with
    | .ok a, .ok b =>
        if h : a = b then isTrue (by rw [h])
        else isFalse (by intro hh; cases hh; exact h rfl)
    | .error a, .error b =>
        if h : a = b then isTrue (by rw [h])
        else isFalse (by intro hh; cases hh; exact h rfl)
    | .ok _, .error _ => isFalse (by intro hh; cases hh)
    | .error _, .ok _ => isFalse (by intro hh; cases hh)

/-- A cached/reported value: a number, or a raw byte list (`data24`,
`data144`). -/
inductive CVal where
  | num (q : PyQ)
  | raw (l : List PyQ)
  deriving DecidableEq, Repr

/-- Python `x == z` for a cached value against an integer: lists never equal
a number. -/
def cvalEqInt : CVal → Int → Prop
  | .num q, z => q.eqInt z
  | .raw _, _ => False

instance (v : CVal) (z : Int) : Decidable (cvalEqInt v z) := by
  cases v <;> unfold cvalEqInt <;> infer_instance

/-- Python `x == z` for an optional cached value (`None != z`). -/
def optEqInt : Option CVal → Int → Prop
  | some v, z => cvalEqInt v z
  | none, _ => False

instance (v : Option CVal) (z : Int) : Decidable (optEqInt v z) := by
  cases v <;> unfold optEqInt <;> infer_instance

/-- Extract a number from an optional cached value; `none` for a missing
entry or a raw list (on which the subsequent arithmetic would raise
`TypeError`, just as on `None`). -/
def asNum : Option CVal → Option PyQ
  | some (.num q) => some q
  | _ => none

/-- The synthetic cluster instances of one device (one attribute cache
each).  The same slot names are reused across the device families. -/
inductive Cl where
  | tuyaManuf        -- manufacturer cluster (raw datapoint cache)
  | thermostat       -- Thermostat cluster
  | ui               -- HVAC user interface cluster
  | power            -- PowerConfiguration cluster
  | windowOnOff      -- window-detection OnOff cluster
  | childLockOnOff   -- child-lock OnOff cluster
  | antiFreezeOnOff  -- anti-freeze OnOff cluster
  | limescaleOnOff   -- limescale-protection OnOff cluster
  | scheduleOnOff    -- schedule-mode OnOff cluster
  | awayOnOff        -- away-mode OnOff cluster
  | boostOnOff       -- boost OnOff cluster
  | onlineOnOff      -- online-mode OnOff cluster
  | tempOffsetAnalog -- temperature-offset AnalogOutput cluster
  | windowBinary     -- opened-window BinaryInput cluster
  | windowTempAnalog -- opened-window-temperature AnalogOutput cluster
  deriving DecidableEq, Repr

/-- Cache key: cluster slot plus attribute id. -/
abbrev AKey := Cl × Nat

/-- All synthetic-cluster attribute caches of one device, as an association
list (`cset` prepends, `cget` takes the first hit: last value wins). -/
abbrev Cache := List (AKey × CVal)

/-- Cache lookup (`_attr_cache.get`). -/
def cget : Cache → AKey → Option CVal
  | [], _ => none
  | (k, v) :: rest, j => if k = j then some v else cget rest j

/-- Cache store (`_attr_cache[k] = v`). -/
def cset (c : Cache) (k : AKey) (v : CVal) : Cache := (k, v) :: c

/-- Numeric cache lookup with a default, `_attr_cache.get(k, d)` at call
sites that immediately use the value arithmetically.  (A raw list stored
under such a key would make Python raise `TypeError`; no code path stores
one there, and we return the default in that unreachable case.) -/
def cgetNumD (c : Cache) (k : AKey) (d : PyQ) : PyQ :=
  match cget c k with
  | some (.num q) => q
  | _ => d

@[simp] theorem cget_cset (c : Cache) (k j : AKey) (v : CVal) :
    cget (cset c k v) j = if k = j then some v else cget c j := rfl

/-- Two caches that agree as maps (the association lists may differ). -/
def cequiv (a b : Cache) : Prop := ∀ k, cget a k = cget b k

/-- Device state: all caches plus the chronological trace of attribute
updates delivered to cluster listeners. -/
structure DevState where
  cache : Cache
  events : List (AKey × CVal)
  deriving DecidableEq, Repr

/-- `_update_attribute` on cluster `cl`: store in the cache and notify
listeners (recorded in the trace). -/
def upd (s : DevState) (cl : Cl) (a : Nat) (v : CVal) : DevState :=
  ⟨cset s.cache (cl, a) v, s.events ++ [((cl, a), v)]⟩

/-- `_update_attribute` with a numeric value. -/
def updN (s : DevState) (cl : Cl) (a : Nat) (q : PyQ) : DevState :=
  upd s cl a (.num q)

/-! ## Standard attribute ids (from `zigpy.zcl.clusters`) -/

abbrev localTemperatureId : Nat := 0x0000
abbrev occupancyId : Nat := 0x0002
abbrev localTemperatureCalibrationId : Nat := 0x0010
abbrev occupiedHeatingSetpointId : Nat := 0x0012
abbrev unoccupiedHeatingSetpointId : Nat := 0x0014
abbrev minHeatSetpointLimitId : Nat := 0x0015
abbrev maxHeatSetpointLimitId : Nat := 0x0016
abbrev systemModeId : Nat := 0x001C
abbrev alarmMaskId : Nat := 0x001D
abbrev runningModeId : Nat := 0x001E
abbrev programingOperModeId : Nat := 0x0025
abbrev runningStateId : Nat := 0x0029
abbrev onOffId : Nat := 0x0000
abbrev keypadLockoutId : Nat := 0x0001
abbrev presentValueId : Nat := 0x0055
abbrev batteryPercentageRemainingId : Nat := 0x0021

/-! Enumeration values (from `zigpy` `Thermostat`):
`SystemMode.Off = 0`, `SystemMode.Heat = 4`; `RunningMode.Off = 0`,
`RunningMode.Heat = 4`; `RunningState.Idle = 0`,
`RunningState.Heat_State_On = 1`; `ProgrammingOperationMode.Simple = 0`,
`.Schedule_programming_mode = 1`, `.Economy_mode = 4`;
`Occupancy.Unoccupied = 0`, `.Occupied = 1`. -/

/-! ## Bus handlers shared by the thermostat quirks

These methods live in `zhaquirks/tuya/__init__.py`, which is part of this
repository but not under `src/`; they are modelled from the spec and pinned
by `tests/test_saswell_tuya_trv.py`. -/

/-- Modelled from the spec: `TuyaThermostatCluster.state_change`, the
derived running/idle indicator sink (missing from `src/`; only its callers
and tests are available).  The derived-state calculators "emit one or more
standard-attribute updates (state, plus mode/sub-mode)": state `0` yields
`RunningMode.Off` and `RunningState.Idle`, any other state yields
`RunningMode.Heat` and `RunningState.Heat_State_On`, in that order, exactly
as asserted by `tests/test_saswell_tuya_trv.py`. -/
def state_change (s : DevState) (value : PyQ) : DevState :=
  if value.eqInt 0 then
    let s := updN s .thermostat runningModeId (.ofInt 0)
    updN s .thermostat runningStateId (.ofInt 0)
  else
    let s := updN s .thermostat runningModeId (.ofInt 4)
    updN s .thermostat runningStateId (.ofInt 1)

/-- Modelled from the spec: `TuyaThermostatCluster.temperature_change`
(missing from `src/`), which delivers a forward-translated value to the
named standard thermostat attribute — "each [update] delivered to exactly
the synthetic cluster(s) the rule targets".  We identify the attribute by
its id. -/
def temperature_change (s : DevState) (a : Nat) (value : PyQ) : DevState :=
  updN s .thermostat a value

/-- Modelled from the spec: `TuyaUserInterfaceCluster.child_lock_change`
(missing from `src/`): a truthy child-lock value sets `keypad_lockout` to
`Level_1_lockout` (1), otherwise `No_lockout` (0), as asserted by the
Saswell tests. -/
def ui_child_lock_change (s : DevState) (value : PyQ) : DevState :=
  updN s .ui keypadLockoutId (.ofInt (if value.truthy then 1 else 0))

/-- Modelled from the spec: the power-configuration cluster's
`battery_change` listener (missing from `src/`) stores the reported
percentage in `battery_percentage_remaining`, which ZCL encodes in
half-percent units (value doubled). -/
def battery_change (s : DevState) (value : PyQ) : DevState :=
  updN s .power batteryPercentageRemainingId (value.mulInt 2)

/-- `SaswellPowerConfigurationCluster.battery_alarm_event`: a reported
alarm value of exactly 1 stores 0 in `battery_percentage_remaining`
(0% battery), any other value stores 200 (100% in ZCL half-percent
units). -/
def battery_alarm_event (s : DevState) (value : PyQ) : DevState :=
  updN s .power batteryPercentageRemainingId (.ofInt (if value.eqInt 1 then 0 else 200))

/-! ## Saswell (`SaswellManufCluster` / `SaswellThermostat`) -/

abbrev SASWELL_CHILD_LOCK_ATTR : Nat := 0x0128
abbrev SASWELL_ANTI_FREEZE_ATTR : Nat := 0x010A
abbrev SASWELL_WINDOW_DETECT_ATTR : Nat := 0x0108
abbrev SASWELL_LIMESCALE_PROTECT_ATTR : Nat := 0x0182
abbrev SASWELL_TEMP_CORRECTION_ATTR : Nat := 0x021B
abbrev SASWELL_ROOM_TEMP_ATTR : Nat := 0x0266
abbrev SASWELL_AWAY_MODE_ATTR : Nat := 0x016A
abbrev SASWELL_SCHEDULE_MODE_ATTR : Nat := 0x016C
abbrev SASWELL_ONOFF_ATTR : Nat := 0x0165
abbrev SASWELL_TARGET_TEMP_ATTR : Nat := 0x0267
abbrev SASWELL_BATTERY_ALARM_ATTR : Nat := 0x569

namespace Saswell

/-- `SaswellThermostat.on_off_event`. -/
def on_off_event (s : DevState) (value : PyQ) : DevState :=
  if value.eqInt 1 then
    let s := updN s .thermostat systemModeId (.ofInt 4)      -- SystemMode.Heat
    let s := updN s .thermostat runningModeId (.ofInt 4)     -- RunningMode.Heat
    updN s .thermostat runningStateId (.ofInt 1)             -- Heat_State_On
  else
    let s := updN s .thermostat systemModeId (.ofInt 0)      -- SystemMode.Off
    let s := updN s .thermostat runningModeId (.ofInt 0)     -- RunningMode.Off
    updN s .thermostat runningStateId (.ofInt 0)             -- Idle

/-- `SaswellThermostat.hass_climate_state_change`.  Reaching the integer
comparison with a missing (or non-numeric) cached counterpart raises
`TypeError` (`None + 2` / `int(None)`). -/
def hass_climate_state_change (s : DevState) (attrid : Nat) (value : PyQ) :
    Except PyErr DevState :=
  --  not in heat mode
  if ¬ optEqInt (cget s.cache (.thermostat, systemModeId)) 4 then
    .ok (state_change s (.ofInt 0))
  else
    -- heat mode:
    let tc? : Option PyQ :=
      if attrid = SASWELL_ROOM_TEMP_ATTR then some (value.mulInt 10)
      else asNum (cget s.cache (.thermostat, localTemperatureId))
    let ts? : Option PyQ :=
      if attrid = SASWELL_ROOM_TEMP_ATTR then
        asNum (cget s.cache (.thermostat, occupiedHeatingSetpointId))
      else some (value.mulInt 10)
    match tc?, ts? with
    | some tc, some ts =>
        .ok (state_change s (.ofInt (if tc.toInt ≥ (ts.addInt 2).toInt then 0 else 1)))
    | _, _ => .error .typeError

/-- The `DIRECT_MAPPED_ATTRS` block of `SaswellManufCluster._update_attribute`. -/
def direct_mapped_update (s : DevState) (attrid : Nat) (value : PyQ) : DevState :=
  if attrid = SASWELL_ROOM_TEMP_ATTR then
    temperature_change s localTemperatureId (value.mulInt 10)
  else if attrid = SASWELL_TARGET_TEMP_ATTR then
    temperature_change s occupiedHeatingSetpointId (value.mulInt 10)
  else if attrid = SASWELL_TEMP_CORRECTION_ATTR then
    temperature_change s localTemperatureCalibrationId (.ofInt (PyQ.round (value.mulInt 10)))
  else s

/-- `SaswellManufCluster._update_attribute`: cache the datapoint and fan the
update out to the listening synthetic clusters (the bus listeners are the
`SaswellThermostat`, the `SaswellCustomOnOff` subclasses, the UI, power and
temperature-offset clusters). -/
def update_attribute (s : DevState) (attrid : Nat) (value : PyQ) : DevState :=
  -- super()._update_attribute
  let s := updN s .tuyaManuf attrid value
  -- DIRECT_MAPPED_ATTRS
  let s := direct_mapped_update s attrid value
  if attrid = SASWELL_ONOFF_ATTR then on_off_event s value
  else if attrid = SASWELL_SCHEDULE_MODE_ATTR then
    updN s .scheduleOnOff onOffId value                 -- schedule_mode_change
  else if attrid = SASWELL_AWAY_MODE_ATTR then
    updN s .awayOnOff onOffId value                     -- away_mode_change
  else if attrid = SASWELL_CHILD_LOCK_ATTR then
    let s := ui_child_lock_change s value
    updN s .childLockOnOff onOffId value                -- child_lock_change
  else if attrid = SASWELL_WINDOW_DETECT_ATTR then
    updN s .windowOnOff onOffId value                   -- window_detect_change
  else if attrid = SASWELL_ANTI_FREEZE_ATTR then
    updN s .antiFreezeOnOff onOffId value               -- anti_freeze_change
  else if attrid = SASWELL_LIMESCALE_PROTECT_ATTR then
    updN s .limescaleOnOff onOffId value                -- limescale_protection_change
  else if attrid = SASWELL_BATTERY_ALARM_ATTR then
    battery_alarm_event s value
  else if attrid = SASWELL_TEMP_CORRECTION_ATTR then
    updN s .tempOffsetAnalog presentValueId value       -- set_value
  else if attrid = SASWELL_ROOM_TEMP_ATTR ∨ attrid = SASWELL_TARGET_TEMP_ATTR then
    match hass_climate_state_change s attrid value with
    | .ok s2 => s2
    | .error _ => s   -- zigpy's listener_event catches listener exceptions
  else s

/-- A sequence of inbound Saswell datapoint reports. -/
def run (s : DevState) (reports : List (Nat × PyQ)) : DevState :=
  reports.foldl (fun st r => update_attribute st r.1 r.2) s

end Saswell

/-! ## ZONNSMART (`ZONNSMARTManufCluster` / `ZONNSMARTThermostat`) -/

abbrev ZONNSMART_MODE_ATTR : Nat := 0x0402
abbrev ZONNSMART_WINDOW_DETECT_ATTR : Nat := 0x0108
abbrev ZONNSMART_FROST_PROTECT_ATTR : Nat := 0x010A
abbrev ZONNSMART_TARGET_TEMP_ATTR : Nat := 0x0210
abbrev ZONNSMART_TEMPERATURE_ATTR : Nat := 0x0218
abbrev ZONNSMART_TEMPERATURE_CALIBRATION_ATTR : Nat := 0x021B
abbrev ZONNSMART_WEEK_FORMAT_ATTR : Nat := 0x041F
abbrev ZONNSMART_HOLIDAY_TEMP_ATTR : Nat := 0x0220
abbrev ZONNSMART_BATTERY_ATTR : Nat := 0x0223
abbrev ZONNSMART_UPTIME_TIME_ATTR : Nat := 0x0024
abbrev ZONNSMART_CHILD_LOCK_ATTR : Nat := 0x0128
abbrev ZONNSMART_FAULT_DETECTION_ATTR : Nat := 0x052D
abbrev ZONNSMART_BOOST_TIME_ATTR : Nat := 0x0265
abbrev ZONNSMART_OPENED_WINDOW_TEMP : Nat := 0x0266
abbrev ZONNSMART_COMFORT_TEMP_ATTR : Nat := 0x0268
abbrev ZONNSMART_ECO_TEMP_ATTR : Nat := 0x0269
abbrev ZONNSMART_HEATING_STOPPING_ATTR : Nat := 0x016B
abbrev ZONNSMART_ONLINE_MODE_ENUM_ATTR : Nat := 0x0473
abbrev ZONNSMART_ONLINE_MODE_BOOL_ATTR : Nat := 0x0173

/-- `ZONNSMARTThermostat.Preset`-relevant custom attribute. -/
abbrev operationPresetId : Nat := 0x4002

namespace Zonnsmart

/-- `ZONNSMARTThermostat.mode_change`: translate the device mode /
frost-protection datapoints into `programing_oper_mode` and the custom
`operation_preset` attribute. -/
def mode_change (s : DevState) (attrid : Nat) (value : PyQ) : DevState :=
  if attrid = ZONNSMART_MODE_ATTR then
    if value.eqInt 0 then
      let s := updN s .thermostat programingOperModeId (.ofInt 1)  -- Schedule
      updN s .thermostat operationPresetId (.ofInt 0)              -- Preset.Schedule
    else if value.eqInt 1 then
      let s := updN s .thermostat programingOperModeId (.ofInt 0)  -- Simple
      updN s .thermostat operationPresetId (.ofInt 1)              -- Preset.Manual
    else if value.eqInt 2 then
      let s := updN s .thermostat programingOperModeId (.ofInt 0)  -- Simple
      updN s .thermostat operationPresetId (.ofInt 2)              -- Preset.Holiday
    else if value.eqInt 3 then
      let s := updN s .thermostat programingOperModeId (.ofInt 1)  -- Schedule
      updN s .thermostat operationPresetId (.ofInt 3)              -- Preset.HolidayTemp
    else s                                                         -- error log only
  else if attrid = ZONNSMART_FROST_PROTECT_ATTR then
    if value.eqInt 1 then
      updN s .thermostat operationPresetId (.ofInt 4)              -- Preset.FrostProtect
    else s
  else s

/-- `ZONNSMARTThermostat.system_mode_change` (the dispatcher passes
`value == 0` for the heating-stop datapoint). -/
def system_mode_change (s : DevState) (value : Bool) : DevState :=
  updN s .thermostat systemModeId (.ofInt (if value then 4 else 0))

/-- `ZONNSMARTThermostat.state_temp_change`: derive the running state by
comparing current and target temperature.  There is no system-mode guard;
reaching `int(...)` on a missing (or non-numeric) cached counterpart raises
`TypeError`. -/
def state_temp_change (s : DevState) (attrid : Nat) (value : PyQ) :
    Except PyErr DevState :=
  if attrid = ZONNSMART_TEMPERATURE_ATTR then
    let tc := value.mulInt 10
    match asNum (cget s.cache (.thermostat, occupiedHeatingSetpointId)) with
    | some ts => .ok (state_change s (.ofInt (if tc.toInt ≥ ts.toInt then 0 else 1)))
    | none => .error .typeError
  else if attrid = ZONNSMART_TARGET_TEMP_ATTR then
    let ts := value.mulInt 10
    match asNum (cget s.cache (.thermostat, localTemperatureId)) with
    | some tc => .ok (state_change s (.ofInt (if tc.toInt ≥ ts.toInt then 0 else 1)))
    | none => .error .typeError
  else .ok s

/-- The `DIRECT_MAPPED_ATTRS` / listener chain of
`ZONNSMARTManufCluster._update_attribute` (first `if` chain). -/
def first_chain (s : DevState) (attrid : Nat) (value : PyQ) : DevState :=
  if attrid = ZONNSMART_TEMPERATURE_ATTR then
      temperature_change s localTemperatureId (value.mulInt 10)
    else if attrid = ZONNSMART_TEMPERATURE_CALIBRATION_ATTR then
      temperature_change s localTemperatureCalibrationId (value.mulInt 10)
    else if attrid = ZONNSMART_TARGET_TEMP_ATTR then
      temperature_change s occupiedHeatingSetpointId (value.mulInt 10)
    else if attrid = ZONNSMART_HOLIDAY_TEMP_ATTR then
      temperature_change s unoccupiedHeatingSetpointId (value.mulInt 10)
    else if attrid = ZONNSMART_FAULT_DETECTION_ATTR then
      temperature_change s alarmMaskId (.ofInt (if value.truthy then 2 else 0))
    else if attrid = ZONNSMART_WINDOW_DETECT_ATTR then
      updN s .windowBinary presentValueId value              -- set_value
    else if attrid = ZONNSMART_OPENED_WINDOW_TEMP then
      updN s .windowTempAnalog presentValueId (value.divInt 10)  -- set_value
    else if attrid = ZONNSMART_MODE_ATTR ∨ attrid = ZONNSMART_FROST_PROTECT_ATTR then
      mode_change s attrid value
    else if attrid = ZONNSMART_HEATING_STOPPING_ATTR then
      system_mode_change s (value.eqInt 0)
    else if attrid = ZONNSMART_CHILD_LOCK_ATTR then
      let s := ui_child_lock_change s value
      updN s .childLockOnOff onOffId value                   -- set_change
    else if attrid = ZONNSMART_BATTERY_ATTR then
      battery_change s value
    else if attrid = ZONNSMART_ONLINE_MODE_ENUM_ATTR then
      updN s .onlineOnOff onOffId value                      -- set_change
    else if attrid = ZONNSMART_BOOST_TIME_ATTR then
      updN s .boostOnOff onOffId (.ofInt (if 0 < value.num then 1 else 0))
    else s

/-- `ZONNSMARTManufCluster._update_attribute`: cache the datapoint and fan
the update out through both listener chains. -/
def update_attribute (s : DevState) (attrid : Nat) (value : PyQ) : DevState :=
  -- super()._update_attribute
  let s := updN s .tuyaManuf attrid value
  -- DIRECT_MAPPED_ATTRS and the first listener chain
  let s := first_chain s attrid value
  -- second chain
  if attrid = ZONNSMART_TEMPERATURE_CALIBRATION_ATTR then
    updN s .tempOffsetAnalog presentValueId (value.divInt 10)  -- set_value
  else if attrid = ZONNSMART_TEMPERATURE_ATTR ∨ attrid = ZONNSMART_TARGET_TEMP_ATTR then
    match state_temp_change s attrid value with
    | .ok s2 => s2
    | .error _ => s   -- zigpy's listener_event catches listener exceptions
  else s

/-- A sequence of inbound ZONNSMART datapoint reports. -/
def run (s : DevState) (reports : List (Nat × PyQ)) : DevState :=
  reports.foldl (fun st r => update_attribute st r.1 r.2) s

/-- `ZONNSMARTManufCluster.__init__` stores the fresh instance in the
module-level global `ZonnsmartManuClusterSelf`; we track which device's
manufacturer cluster the global points to. -/
def ZONNSMARTManufCluster.init (_g : Option Nat) (device : Nat) : Option Nat :=
  some device

/-- `ZONNSMARTHelperOnOff.get_attr_val_to_write` (base class). -/
def ZONNSMARTHelperOnOff.get_attr_val_to_write (_value : PyQ) : Option (Nat × PyQ) :=
  none

/-- `ZONNSMARTBoost.get_attr_val_to_write`. -/
def ZONNSMARTBoost.get_attr_val_to_write (value : PyQ) : Option (Nat × PyQ) :=
  some (ZONNSMART_BOOST_TIME_ATTR, .ofInt (if value.truthy then 299 else 0))

/-- `ZONNSMARTChildLock.get_attr_val_to_write`. -/
def ZONNSMARTChildLock.get_attr_val_to_write (value : PyQ) : Option (Nat × PyQ) :=
  some (ZONNSMART_CHILD_LOCK_ATTR, value)

/-- `ZONNSMARTOnlineMode.get_attr_val_to_write`. -/
def ZONNSMARTOnlineMode.get_attr_val_to_write (value : PyQ) : Option (Nat × PyQ) :=
  some (ZONNSMART_ONLINE_MODE_BOOL_ATTR, value)

/-- Outcome of a deferred attribute write: the status records plus the
outbound datapoint writes, each tagged with the device whose manufacturer
cluster carries it. -/
inductive WriteOutcome where
  | success (outbound : List (Nat × Nat × PyQ))
  | failure (attrs : List String)
  deriving DecidableEq, Repr

/-- `ZONNSMARTHelperOnOff.write_attributes`: the outbound datapoint write is
issued through the module-level global (`ZonnsmartManuClusterSelf`), not
through the endpoint of the cluster being written.  A `none` global (no
device constructed yet) would raise `AttributeError`; we fold that into
`PyErr`. -/
def ZONNSMARTHelperOnOff.write_attributes (g : Option Nat)
    (get_attr_val : PyQ → Option (Nat × PyQ)) (records : List (String × PyQ)) :
    Except PyErr WriteOutcome :=
  if records = [] then .ok (.success [])
  else
    match (records.reverse.find? (fun r => r.1 == "on_off")).map (·.2) with
    | some value =>
      match get_attr_val value with
      | some av =>
        match g with
        | some device => .ok (.success [(device, av.1, av.2)])
        | none => .error .typeError
      | none => .ok (.failure (records.map (·.1)))
    | none => .ok (.failure (records.map (·.1)))

/-- The attribute-id table of the zigpy `AnalogOutput` cluster (the
external-library `self.attributes` of `ZONNSMARTWindowOpenedTemp`):
`description`, `max_present_value`, `min_present_value`, `out_of_service`,
`present_value`, `priority_array`, `reliability`, `relinquish_default`,
`resolution`, `status_flags`, `engineering_units`, `application_type`.
The source accepts a write to any of these; ids outside the table are
skipped with an error log. -/
def windowOpenedTempValidIds : List Nat :=
  [0x001C, 0x0041, 0x0045, 0x0051, 0x0055, 0x0057,
   0x0067, 0x0068, 0x006A, 0x006F, 0x0075, 0x0100]

/-- `ZONNSMARTWindowOpenedTemp.write_attributes`: every record naming a
valid `AnalogOutput` attribute id is cached locally and triggers the
outbound `value * 10` datapoint write through the module-level global
(`ZonnsmartManuClusterSelf`); other ids are skipped. -/
def ZONNSMARTWindowOpenedTemp.write_attributes (g : Option Nat) (s : DevState)
    (attributes : List (Nat × PyQ)) :
    Except PyErr (DevState × List (Nat × Nat × PyQ)) :=
  attributes.foldlM
    (fun (acc : DevState × List (Nat × Nat × PyQ)) a =>
      if a.1 ∈ windowOpenedTempValidIds then
        let st := upd acc.1 .windowTempAnalog a.1 (.num a.2)
        match g with
        | some device =>
            .ok (st, acc.2 ++ [(device, ZONNSMART_OPENED_WINDOW_TEMP, a.2.mulInt 10)])
        | none => .error .typeError
      else .ok acc)      -- not a valid attribute id: error log, continue
    (s, [])

end Zonnsmart

/-! ## Moes (`MoesManufCluster` / `MoesThermostat` / `MoesWindowDetection`) -/

abbrev MOES_TARGET_TEMP_ATTR : Nat := 0x0202
abbrev MOES_TEMPERATURE_ATTR : Nat := 0x0203
abbrev MOES_MODE_ATTR : Nat := 0x0404
abbrev MOES_CHILD_LOCK_ATTR : Nat := 0x0107
abbrev MOES_VALVE_DETECT_ATTR : Nat := 0x0114
abbrev MOES_TEMP_CALIBRATION_ATTR : Nat := 0x022C
abbrev MOES_MIN_TEMPERATURE_ATTR : Nat := 0x0266
abbrev MOES_MAX_TEMPERATURE_ATTR : Nat := 0x0267
abbrev MOES_WINDOW_DETECT_ATTR : Nat := 0x0068
abbrev MOES_BOOST_TIME_ATTR : Nat := 0x0269
abbrev MOES_FORCE_VALVE_ATTR : Nat := 0x046A
abbrev MOES_COMFORT_TEMP_ATTR : Nat := 0x026B
abbrev MOES_ECO_TEMP_ATTR : Nat := 0x026C
abbrev MOES_VALVE_STATE_ATTR : Nat := 0x026D
abbrev MOES_BATTERY_LOW_ATTR : Nat := 0x016E
abbrev MOES_WEEK_FORMAT_ATTR : Nat := 0x046F
abbrev MOES_AWAY_TEMP_ATTR : Nat := 0x0272
abbrev MOES_AUTO_LOCK_ATTR : Nat := 0x0174
abbrev MOES_AWAY_DAYS_ATTR : Nat := 0x0275
abbrev MOES_SCHEDULE_WORKDAY_ATTR : Nat := 0x0070
abbrev MOES_SCHEDULE_WEEKEND_ATTR : Nat := 0x0071

/-- Custom `MoesThermostat` attribute ids. -/
abbrev comfortHeatingSetpointId : Nat := 0x4000
abbrev ecoHeatingSetpointId : Nat := 0x4001
abbrev workDaysId : Nat := 0x4003
abbrev valveOpenPercentageId : Nat := 0x4004
abbrev boostDurationSecondsId : Nat := 0x4005
abbrev valveForceStateId : Nat := 0x4006
abbrev unoccupiedDurationDaysId : Nat := 0x4007
/-- `MoesUserInterface` custom attribute id. -/
abbrev autoLockId : Nat := 0x5000
/-- `MoesWindowDetection` custom attribute ids. -/
abbrev windowDetectionTemperatureId : Nat := 0x6000
abbrev windowDetectionTimeoutMinutesId : Nat := 0x6001

namespace Moes

/-- Run a handler that needs a numeric datapoint value.  The per-family
registry types make a raw payload impossible for these datapoints; on a raw
value the handler would raise and the bus would swallow the exception, so
the state is returned unchanged. -/
def onNum (value : CVal) (s : DevState) (f : PyQ → DevState) : DevState :=
  match value with
  | .num q => f q
  | .raw _ => s

/-- `MoesThermostat.mode_change`: translate the mode datapoint into
`programing_oper_mode` and `occupancy`. -/
def mode_change (s : DevState) (value : PyQ) : DevState :=
  let pm_occ : Int × Int :=
    if value.eqInt 0 then (0, 0)        -- Simple, Unoccupied
    else if value.eqInt 1 then (1, 1)   -- Schedule_programming_mode, Occupied
    else if value.eqInt 2 ∨ value.eqInt 3 then (0, 1)
    else if value.eqInt 4 then (4, 1)   -- Economy_mode, Occupied
    else if value.eqInt 5 then (0, 1)
    else (0, 1)
  let s := updN s .thermostat programingOperModeId (.ofInt pm_occ.1)
  updN s .thermostat occupancyId (.ofInt pm_occ.2)

/-- Hour byte with its two top flag bits masked off (`value & 0x3F`); the
wire bytes are nonnegative integers, for which the mask is `% 64`. -/
def mask63 (q : PyQ) : PyQ := .ofInt (Int.emod q.num 64)

/-- `MoesThermostat.schedule_change`: unpack an 18-byte schedule blob into
the per-slot hour/minute/temperature attributes.  The first subscript the
Python code evaluates is `value[17]`, so a blob shorter than 18 bytes
raises before any update; `data144` blobs always have exactly 18 bytes. -/
def schedule_change (s : DevState) (attr : Nat) (value : List PyQ) : DevState :=
  if 18 ≤ value.length then
    let v (i : Nat) : PyQ := value.getD i (.ofInt 0)
    let base : Nat := if attr = MOES_SCHEDULE_WORKDAY_ATTR then 0x4100 else 0x4200
    let s := updN s .thermostat (base + 0x10) (mask63 (v 17))       -- slot 1 hour
    let s := updN s .thermostat (base + 0x11) (v 16)                -- slot 1 minute
    let s := updN s .thermostat (base + 0x12) ((v 15).mulInt 100)   -- slot 1 temperature
    let s := updN s .thermostat (base + 0x20) (mask63 (v 14))
    let s := updN s .thermostat (base + 0x21) (v 13)
    let s := updN s .thermostat (base + 0x22) ((v 12).mulInt 100)
    let s := updN s .thermostat (base + 0x30) (mask63 (v 11))
    let s := updN s .thermostat (base + 0x31) (v 10)
    let s := updN s .thermostat (base + 0x32) ((v 9).mulInt 100)
    let s := updN s .thermostat (base + 0x40) (mask63 (v 8))
    let s := updN s .thermostat (base + 0x41) (v 7)
    let s := updN s .thermostat (base + 0x42) ((v 6).mulInt 100)
    let s := updN s .thermostat (base + 0x50) (mask63 (v 5))
    let s := updN s .thermostat (base + 0x51) (v 4)
    let s := updN s .thermostat (base + 0x52) ((v 3).mulInt 100)
    let s := updN s .thermostat (base + 0x60) (mask63 (v 2))
    let s := updN s .thermostat (base + 0x61) (v 1)
    updN s .thermostat (base + 0x62) ((v 0).mulInt 100)
  else s

/-- `MoesWindowDetection.window_detect_change`: unpack the 3-byte window
datapoint.  The subscripts are evaluated in order, so a short payload
applies the earlier updates and then raises (caught by the bus). -/
def window_detect_change (s : DevState) (value : List PyQ) : DevState :=
  match value with
  | [] => s
  | [v0] => updN s .windowOnOff windowDetectionTimeoutMinutesId v0
  | [v0, v1] =>
      let s := updN s .windowOnOff windowDetectionTimeoutMinutesId v0
      updN s .windowOnOff windowDetectionTemperatureId (v1.mulInt 100)
  | v0 :: v1 :: v2 :: _ =>
      let s := updN s .windowOnOff windowDetectionTimeoutMinutesId v0
      let s := updN s .windowOnOff windowDetectionTemperatureId (v1.mulInt 100)
      updN s .windowOnOff onOffId v2

/-- The `DIRECT_MAPPED_ATTRS` / schedule block of
`MoesManufCluster._update_attribute` (first `if` chain). -/
def first_chain (s : DevState) (attrid : Nat) (value : CVal) : DevState :=
    if attrid = MOES_TEMPERATURE_ATTR then
      onNum value s fun q => temperature_change s localTemperatureId (q.mulInt 10)
    else if attrid = MOES_TARGET_TEMP_ATTR then
      onNum value s fun q => temperature_change s occupiedHeatingSetpointId (q.mulInt 10)
    else if attrid = MOES_AWAY_TEMP_ATTR then
      onNum value s fun q => temperature_change s unoccupiedHeatingSetpointId (q.mulInt 100)
    else if attrid = MOES_COMFORT_TEMP_ATTR then
      onNum value s fun q => temperature_change s comfortHeatingSetpointId (q.mulInt 100)
    else if attrid = MOES_ECO_TEMP_ATTR then
      onNum value s fun q => temperature_change s ecoHeatingSetpointId (q.mulInt 100)
    else if attrid = MOES_TEMP_CALIBRATION_ATTR then
      onNum value s fun q => temperature_change s localTemperatureCalibrationId (q.mulInt 10)
    else if attrid = MOES_MIN_TEMPERATURE_ATTR then
      onNum value s fun q => temperature_change s minHeatSetpointLimitId (q.mulInt 100)
    else if attrid = MOES_MAX_TEMPERATURE_ATTR then
      onNum value s fun q => temperature_change s maxHeatSetpointLimitId (q.mulInt 100)
    else if attrid = MOES_VALVE_STATE_ATTR then
      onNum value s fun q => temperature_change s valveOpenPercentageId q
    else if attrid = MOES_AWAY_DAYS_ATTR then
      onNum value s fun q => temperature_change s unoccupiedDurationDaysId q
    else if attrid = MOES_BOOST_TIME_ATTR then
      onNum value s fun q => temperature_change s boostDurationSecondsId q
    else if attrid = MOES_MODE_ATTR then
      onNum value s fun q => temperature_change s operationPresetId q
    else if attrid = MOES_WEEK_FORMAT_ATTR then
      onNum value s fun q => temperature_change s workDaysId q
    else if attrid = MOES_FORCE_VALVE_ATTR then
      onNum value s fun q => temperature_change s valveForceStateId q
    else if attrid = MOES_SCHEDULE_WORKDAY_ATTR ∨ attrid = MOES_SCHEDULE_WEEKEND_ATTR then
      match value with
      | .raw l => schedule_change s attrid l
      | .num _ => s     -- subscripting an int raises; caught by the bus
    else s

/-- `MoesManufCluster._update_attribute`: cache the datapoint and fan the
update out through both listener chains. -/
def update_attribute (s : DevState) (attrid : Nat) (value : CVal) : DevState :=
  -- super()._update_attribute
  let s := upd s .tuyaManuf attrid value
  -- DIRECT_MAPPED_ATTRS and the schedule blobs
  let s := first_chain s attrid value
  -- second listener chain
  if attrid = MOES_WINDOW_DETECT_ATTR then
    match value with
    | .raw l => window_detect_change s l
    | .num _ => s
  else if attrid = MOES_MODE_ATTR then
    onNum value s fun q => mode_change s q
  else if attrid = MOES_VALVE_STATE_ATTR then
    onNum value s fun q => state_change s q
  else if attrid = MOES_CHILD_LOCK_ATTR then
    onNum value s fun q => ui_child_lock_change s q
  else if attrid = MOES_AUTO_LOCK_ATTR then
    onNum value s fun q =>
      updN s .ui autoLockId (.ofInt (if q.truthy then 1 else 0))  -- autolock_change
  else if attrid = MOES_BATTERY_LOW_ATTR then
    onNum value s fun q => battery_change s (.ofInt (if q.truthy then 5 else 100))
  else s

/-- `MoesThermostat.DIRECT_MAPPING_ATTRS` (write direction): standard
attribute name, manufacturer datapoint, optional numeric transform. -/
def DIRECT_MAPPING_ATTRS : List (String × Nat × Option (PyQ → PyQ)) :=
  [("occupied_heating_setpoint", MOES_TARGET_TEMP_ATTR,
      some fun v => .ofInt (PyQ.round (v.divInt 10))),
   ("unoccupied_heating_setpoint", MOES_AWAY_TEMP_ATTR,
      some fun v => .ofInt (PyQ.round (v.divInt 100))),
   ("comfort_heating_setpoint", MOES_COMFORT_TEMP_ATTR,
      some fun v => .ofInt (PyQ.round (v.divInt 100))),
   ("eco_heating_setpoint", MOES_ECO_TEMP_ATTR,
      some fun v => .ofInt (PyQ.round (v.divInt 100))),
   ("min_heat_setpoint_limit", MOES_MIN_TEMPERATURE_ATTR,
      some fun v => .ofInt (PyQ.round (v.divInt 100))),
   ("max_heat_setpoint_limit", MOES_MAX_TEMPERATURE_ATTR,
      some fun v => .ofInt (PyQ.round (v.divInt 100))),
   ("local_temperature_calibration", MOES_TEMP_CALIBRATION_ATTR,
      some fun v => .ofInt (PyQ.round (v.divInt 10))),
   ("work_days", MOES_WEEK_FORMAT_ATTR, none),
   ("operation_preset", MOES_MODE_ATTR, none),
   ("boost_duration_seconds", MOES_BOOST_TIME_ATTR, none),
   ("valve_force_state", MOES_FORCE_VALVE_ATTR, none),
   ("unoccupied_duration_days", MOES_AWAY_DAYS_ATTR, none)]

/-- `MoesThermostat.WORKDAY_SCHEDULE_ATTRS` in dict insertion order:
standard attribute name, its id, its documented default (centidegrees for
the temperature slots). -/
def WORKDAY_SCHEDULE_ATTRS : List (String × Nat × Int) :=
  [("workday_schedule_6_temperature", 0x4162, 1500),
   ("workday_schedule_6_minute", 0x4161, 0),
   ("workday_schedule_6_hour", 0x4160, 22),
   ("workday_schedule_5_temperature", 0x4152, 2000),
   ("workday_schedule_5_minute", 0x4151, 30),
   ("workday_schedule_5_hour", 0x4150, 17),
   ("workday_schedule_4_temperature", 0x4142, 1500),
   ("workday_schedule_4_minute", 0x4141, 30),
   ("workday_schedule_4_hour", 0x4140, 12),
   ("workday_schedule_3_temperature", 0x4132, 1500),
   ("workday_schedule_3_minute", 0x4131, 30),
   ("workday_schedule_3_hour", 0x4130, 11),
   ("workday_schedule_2_temperature", 0x4122, 1500),
   ("workday_schedule_2_minute", 0x4121, 0),
   ("workday_schedule_2_hour", 0x4120, 8),
   ("workday_schedule_1_temperature", 0x4112, 2000),
   ("workday_schedule_1_minute", 0x4111, 0),
   ("workday_schedule_1_hour", 0x4110, 6)]

/-- `MoesThermostat.WEEKEND_SCHEDULE_ATTRS` in dict insertion order. -/
def WEEKEND_SCHEDULE_ATTRS : List (String × Nat × Int) :=
  [("weekend_schedule_6_temperature", 0x4262, 1500),
   ("weekend_schedule_6_minute", 0x4261, 0),
   ("weekend_schedule_6_hour", 0x4260, 22),
   ("weekend_schedule_5_temperature", 0x4252, 2000),
   ("weekend_schedule_5_minute", 0x4251, 30),
   ("weekend_schedule_5_hour", 0x4250, 17),
   ("weekend_schedule_4_temperature", 0x4242, 1500),
   ("weekend_schedule_4_minute", 0x4241, 30),
   ("weekend_schedule_4_hour", 0x4240, 12),
   ("weekend_schedule_3_temperature", 0x4232, 1500),
   ("weekend_schedule_3_minute", 0x4231, 30),
   ("weekend_schedule_3_hour", 0x4230, 11),
   ("weekend_schedule_2_temperature", 0x4222, 1500),
   ("weekend_schedule_2_minute", 0x4221, 0),
   ("weekend_schedule_2_hour", 0x4220, 8),
   ("weekend_schedule_1_temperature", 0x4212, 2000),
   ("weekend_schedule_1_minute", 0x4211, 0),
   ("weekend_schedule_1_hour", 0x4210, 6)]

/-- The schedule-serialization loop of `MoesThermostat.map_attribute`:
iterate over the (ordered) schedule table with a running index; every third
field (`num % 3 == 0`) is a temperature serialized as `round(x / 100)`, the
others are passed through verbatim; the field being written uses the fresh
value, all others come from the cache with the table's default. -/
def scheduleData : Nat → List (String × Nat × Int) → Cache → String → PyQ → List PyQ
  | _, [], _, _, _ => []
  | num, (attr, aid, dflt) :: rest, c, attrName, value =>
      (if num % 3 = 0 then
        if attr = attrName then .ofInt (PyQ.round (value.divInt 100))
        else .ofInt (PyQ.round ((cgetNumD c (.thermostat, aid) (.ofInt dflt)).divInt 100))
      else
        if attr = attrName then value
        else cgetNumD c (.thermostat, aid) (.ofInt dflt))
      :: scheduleData (num + 1) rest c attrName value

/-- `MoesThermostat.map_attribute` (the Python parameter is named
`attribute`, a Lean keyword, hence `attrName`). -/
def map_attribute (c : Cache) (attrName : String) (value : PyQ) : Option (Nat × CVal) :=
  match DIRECT_MAPPING_ATTRS.find? (fun p => p.1 == attrName) with
  | some (_, aid, f) =>
      some (aid, .num (match f with | none => value | some g => g value))
  | none =>
    if attrName = "programing_oper_mode" ∨ attrName = "occupancy" then
      let occupancy : CVal :=
        if attrName = "occupancy" then .num value
        else (cget c (.thermostat, occupancyId)).getD (.num (.ofInt 1))  -- Occupied
      let oper_mode : CVal :=
        if attrName = "occupancy" then
          (cget c (.thermostat, programingOperModeId)).getD (.num (.ofInt 0))  -- Simple
        else .num value
      if cvalEqInt occupancy 0 then some (MOES_MODE_ATTR, .num (.ofInt 0))
      else if cvalEqInt occupancy 1 then
        if cvalEqInt oper_mode 1 then some (MOES_MODE_ATTR, .num (.ofInt 1))
        else if cvalEqInt oper_mode 0 then some (MOES_MODE_ATTR, .num (.ofInt 2))
        else if cvalEqInt oper_mode 4 then some (MOES_MODE_ATTR, .num (.ofInt 4))
        else none    -- error log, no return value
      else none      -- error log, no return value
    else if attrName = "system_mode" then
      some (MOES_MODE_ATTR, (cget c (.thermostat, operationPresetId)).getD (.num (.ofInt 2)))
    else if (WORKDAY_SCHEDULE_ATTRS.find? (fun p => p.1 == attrName)).isSome then
      some (MOES_SCHEDULE_WORKDAY_ATTR,
            .raw (scheduleData 0 WORKDAY_SCHEDULE_ATTRS c attrName value))
    else if (WEEKEND_SCHEDULE_ATTRS.find? (fun p => p.1 == attrName)).isSome then
      some (MOES_SCHEDULE_WEEKEND_ATTR,
            .raw (scheduleData 0 WEEKEND_SCHEDULE_ATTRS c attrName value))
    else none

/-- Result of a `write_attributes` call: status records plus the outbound
datapoint writes handed to the manufacturer cluster. -/
inductive WAResult where
  | success (outbound : List (Nat × CVal))
  | failure (attrs : List String)
  deriving DecidableEq, Repr

/-- `MoesWindowDetection.write_attributes`: build the 3-byte window
datapoint from the cache (documented defaults `5` minutes, `50`
centidegrees and `False` for entries never observed), overwrite the fields
being written, and defer to one outbound datapoint write; if no known field
is written, fail every record.  The write path never touches the attribute
cache, which the unchanged `Cache` component records. -/
def MoesWindowDetection.write_attributes (c : Cache) (records : List (String × PyQ)) :
    Cache × WAResult :=
  if records = [] then (c, .success [])
  else
    let data0 := cgetNumD c (.windowOnOff, windowDetectionTimeoutMinutesId) (.ofInt 5)
    let data1 : PyQ :=
      .ofInt (PyQ.round ((cgetNumD c (.windowOnOff, windowDetectionTemperatureId)
        (.ofInt 50)).divInt 100))
    let data2 := cgetNumD c (.windowOnOff, onOffId) (.ofInt 0)     -- False
    let st := records.foldl
      (fun (acc : Bool × PyQ × PyQ × PyQ) r =>
        if r.1 = "on_off" then (true, acc.2.1, acc.2.2.1, r.2)
        else if r.1 = "window_detection_temperature" then
          (true, acc.2.1, r.2.divInt 100, acc.2.2.2)               -- no rounding here
        else if r.1 = "window_detection_timeout_minutes" then
          (true, r.2, acc.2.2.1, acc.2.2.2)
        else acc)
      (false, data0, data1, data2)
    if st.1 then
      (c, .success [(MOES_WINDOW_DETECT_ATTR, .raw [st.2.1, st.2.2.1, st.2.2.2])])
    else (c, .failure (records.map (·.1)))

end Moes

/-! ## Siterwell (`SiterwellThermostat`) -/

abbrev SITERWELL_TARGET_TEMP_ATTR : Nat := 0x0202
abbrev SITERWELL_MODE_ATTR : Nat := 0x0404

namespace Siterwell

/-- `SiterwellThermostat.map_attribute`. -/
def map_attribute (c : Cache) (attrName : String) (value : PyQ) : Option (Nat × PyQ) :=
  if attrName = "occupied_heating_setpoint" then
    some (SITERWELL_TARGET_TEMP_ATTR, .ofInt (PyQ.round (value.divInt 10)))
  else if attrName = "system_mode" ∨ attrName = "programing_oper_mode" then
    let system_mode : CVal :=
      if attrName = "system_mode" then .num value
      else (cget c (.thermostat, systemModeId)).getD (.num (.ofInt 4))  -- SystemMode.Heat
    let oper_mode : CVal :=
      if attrName = "system_mode" then
        (cget c (.thermostat, programingOperModeId)).getD (.num (.ofInt 0))  -- Simple
      else .num value
    if cvalEqInt system_mode 0 then some (SITERWELL_MODE_ATTR, .ofInt 0)
    else if cvalEqInt system_mode 4 then
      if cvalEqInt oper_mode 1 then some (SITERWELL_MODE_ATTR, .ofInt 1)
      else if cvalEqInt oper_mode 0 then some (SITERWELL_MODE_ATTR, .ofInt 2)
      else none    -- error log, no return value
    else none      -- error log, no return value
  else none

end Siterwell

namespace Saswell

/-- `SaswellCustomOnOff.map_attribute` (the base class): no attribute maps
to a manufacturer datapoint. -/
def SaswellCustomOnOff.map_attribute (_attrName : String) (_value : PyQ) :
    List (Nat × PyQ) := []

/-- `SaswellCustomOnOff.write_attributes`: collect the mapped manufacturer
attributes of all records; an empty mapping fails every record and issues
no outbound write (the attribute cache is never touched on this path,
recorded by the unchanged `Cache` component). -/
def SaswellCustomOnOff.write_attributes (c : Cache) (records : List (String × PyQ)) :
    Cache × Moes.WAResult :=
  if records = [] then (c, .success [])
  else
    let manufacturer_attrs :=
      records.foldl (fun acc r => acc ++ SaswellCustomOnOff.map_attribute r.1 r.2) []
    if manufacturer_attrs = [] then (c, .failure (records.map (·.1)))
    else (c, .success (manufacturer_attrs.map fun p => (p.1, .num p.2)))

end Saswell

/-! ## Helper definitions for the statements -/

/-- The running-state updates contained in an update trace, in order. -/
def runningStateOf (events : List (AKey × CVal)) : List CVal :=
  (events.filter fun e => decide (e.1 = ((Cl.thermostat, runningStateId) : AKey))).map (·.2)

/-- A concrete Saswell thermostat cache: heat mode with the target setpoint
cached from a target-temperature report of 250 (stored in centidegrees). -/
def saswellHeatCache : Cache :=
  [((.thermostat, systemModeId), .num (.ofInt 4)),
   ((.thermostat, occupiedHeatingSetpointId), .num (.ofInt 2500))]

/-- A concrete ZONNSMART thermostat cache: off mode with the target setpoint
cached from a target-temperature report of 250 (stored in centidegrees). -/
def zonnOffCache : Cache :=
  [((.thermostat, systemModeId), .num (.ofInt 0)),
   ((.thermostat, occupiedHeatingSetpointId), .num (.ofInt 2500))]

/-- What the spec says entry `i` of an outgoing schedule blob holds (amended
form): the value of the table's `i`-th field — the fresh value for the field
being written, else the cached value with the table's documented default —
serialized as `round(x / 100)` on the temperature positions (`i % 3 = 0`)
and verbatim on the hour/minute positions. -/
def scheduleSlotSpec (tbl : List (String × Nat × Int)) (c : Cache) (attrName : String)
    (value : PyQ) (i : Nat) : Option PyQ :=
  (tbl.get? i).map fun e =>
    let x : PyQ := if e.1 = attrName then value
                   else cgetNumD c (.thermostat, e.2.1) (.ofInt e.2.2)
    if i % 3 = 0 then .ofInt (PyQ.round (x.divInt 100)) else x

/-- Two device states with the same caches (as maps) and the same update
trace. -/
def DevRel (a b : DevState) : Prop := cequiv a.cache b.cache ∧ a.events = b.events

-- Sanity checks for the Moes / Siterwell reverse mappers.
example :
    Moes.map_attribute [] "workday_schedule_1_hour" (.ofInt 7) =
    some (MOES_SCHEDULE_WORKDAY_ATTR,
      .raw [.ofInt 15, .ofInt 0, .ofInt 22, .ofInt 20, .ofInt 30, .ofInt 17,
            .ofInt 15, .ofInt 30, .ofInt 12, .ofInt 15, .ofInt 30, .ofInt 11,
            .ofInt 15, .ofInt 0, .ofInt 8, .ofInt 20, .ofInt 0, .ofInt 7]) := by decide

example :
    Moes.map_attribute [] "system_mode" (.ofInt 4) =
    some (MOES_MODE_ATTR, .num (.ofInt 2)) := by decide

example :
    Siterwell.map_attribute [] "system_mode" (.ofInt 4) =
    some (SITERWELL_MODE_ATTR, .ofInt 2) := by decide

example :
    Moes.MoesWindowDetection.write_attributes [] [("on_off", .ofInt 1)] =
    ([], .success [(MOES_WINDOW_DETECT_ATTR, .raw [.ofInt 5, .ofInt 0, .ofInt 1])]) := by
  decide

-- Sanity checks against `tests/test_saswell_tuya_trv.py`
-- (target temp 15 while off: setpoint 150, running mode Off, state Idle).
example :
    (Saswell.update_attribute ⟨[((.thermostat, systemModeId), .num (.ofInt 0))], []⟩
      SASWELL_TARGET_TEMP_ATTR (.ofInt 15)).events =
    [((.tuyaManuf, SASWELL_TARGET_TEMP_ATTR), .num (.ofInt 15)),
     ((.thermostat, occupiedHeatingSetpointId), .num (.ofInt 150)),
     ((.thermostat, runningModeId), .num (.ofInt 0)),
     ((.thermostat, runningStateId), .num (.ofInt 0))] := by decide

-- heat mode, room temp 30 versus cached setpoint 250: idle.
example :
    (Saswell.update_attribute ⟨[((.thermostat, systemModeId), .num (.ofInt 4)),
        ((.thermostat, occupiedHeatingSetpointId), .num (.ofInt 250))], []⟩
      SASWELL_ROOM_TEMP_ATTR (.ofInt 30)).events =
    [((.tuyaManuf, SASWELL_ROOM_TEMP_ATTR), .num (.ofInt 30)),
     ((.thermostat, localTemperatureId), .num (.ofInt 300)),
     ((.thermostat, runningModeId), .num (.ofInt 0)),
     ((.thermostat, runningStateId), .num (.ofInt 0))] := by decide

-- on/off event: on.
example :
    (Saswell.update_attribute ⟨[], []⟩ SASWELL_ONOFF_ATTR (.ofInt 1)).events =
    [((.tuyaManuf, SASWELL_ONOFF_ATTR), .num (.ofInt 1)),
     ((.thermostat, systemModeId), .num (.ofInt 4)),
     ((.thermostat, runningModeId), .num (.ofInt 4)),
     ((.thermostat, runningStateId), .num (.ofInt 1))] := by decide

/-! ## Claim C1 — Saswell derived running state at target 250 -/

/-- C1, counterexample.  The claim says that in heat mode with target
setpoint 250 a current-temperature reading of 248 makes the calculator emit
running state `Idle`.  In fact the code emits `Heat_State_On` (1): the
comparator keeps heating until `current ≥ target + 2`, and `2480 < 2502`. -/
theorem saswell_reading_248_emits_heating_not_idle :
    runningStateOf (Saswell.update_attribute ⟨saswellHeatCache, []⟩
        SASWELL_ROOM_TEMP_ATTR (.ofInt 248)).events = [.num (.ofInt 1)] ∧
    ((CVal.num (.ofInt 1)) ≠ .num (.ofInt 0)) := by
  constructor
  · decide
  · decide

/-- C1, amended.  For the Saswell derived-state calculator with heating
hysteresis of 2 centidegree units, in heat mode with target setpoint 250:
a current-temperature reading of 248 emits running state `Heat_State_On`
(Heating), a reading of 252 emits `Idle`, and an arrival of the on/off mode
datapoint with value off emits `Idle` whatever the cache holds. -/
theorem saswell_derived_state_at_target_250 :
    runningStateOf (Saswell.update_attribute ⟨saswellHeatCache, []⟩
        SASWELL_ROOM_TEMP_ATTR (.ofInt 248)).events = [.num (.ofInt 1)] ∧
    runningStateOf (Saswell.update_attribute ⟨saswellHeatCache, []⟩
        SASWELL_ROOM_TEMP_ATTR (.ofInt 252)).events = [.num (.ofInt 0)] ∧
    ∀ c : Cache, runningStateOf (Saswell.update_attribute ⟨c, []⟩
        SASWELL_ONOFF_ATTR (.ofInt 0)).events = [.num (.ofInt 0)] := by
  refine ⟨by decide, by decide, fun c => rfl⟩

/-! ## Claim C2 — Idle is forced in off mode -/

/-- C2, counterexample.  The claim says every family's calculator emits
`Idle` while the device is in an off system mode; but
`ZONNSMARTThermostat.state_temp_change` never consults the system mode: with
system mode `Off` cached and target 2500 cached, a current-temperature
report of 200 (2000 centidegrees < 2500) emits running state
`Heat_State_On` (1), not `Idle` (0). -/
theorem zonnsmart_off_mode_emits_heating :
    runningStateOf (Zonnsmart.update_attribute ⟨zonnOffCache, []⟩
        ZONNSMART_TEMPERATURE_ATTR (.ofInt 200)).events = [.num (.ofInt 1)] ∧
    ((CVal.num (.ofInt 1)) ≠ .num (.ofInt 0)) := by
  exact ⟨by decide, by decide⟩

/-- C2, amended.  The Saswell calculator does force `Idle` whenever the
cached system mode is not `Heat` (fresh current- or target-temperature
value alike); but `ZONNSMARTThermostat.state_temp_change` ignores the
system mode entirely: whatever mode is cached, a current-temperature report
emits the bare comparison result — `Heat_State_On` whenever
`current < target` — even in off mode. -/
theorem off_mode_forces_idle :
    (∀ (c : Cache) (v : PyQ),
      ¬ optEqInt (cget c (.thermostat, systemModeId)) 4 →
      runningStateOf (Saswell.update_attribute ⟨c, []⟩ SASWELL_ROOM_TEMP_ATTR v).events
          = [.num (.ofInt 0)] ∧
      runningStateOf (Saswell.update_attribute ⟨c, []⟩ SASWELL_TARGET_TEMP_ATTR v).events
          = [.num (.ofInt 0)]) ∧
    (∀ (c : Cache) (v ts : PyQ),
      cget c (.thermostat, occupiedHeatingSetpointId) = some (.num ts) →
      runningStateOf (Zonnsmart.update_attribute ⟨c, []⟩ ZONNSMART_TEMPERATURE_ATTR v).events
          = [.num (.ofInt (if (v.mulInt 10).toInt ≥ ts.toInt then 0 else 1))]) := by
  constructor
  · intro c v h
    constructor
    · simp [Saswell.update_attribute, Saswell.direct_mapped_update,
        Saswell.hass_climate_state_change, state_change,
        temperature_change, upd, updN, runningStateOf, cget_cset, h, PyQ.eqInt, PyQ.ofInt]
    · simp [Saswell.update_attribute, Saswell.direct_mapped_update,
        Saswell.hass_climate_state_change, state_change,
        temperature_change, upd, updN, runningStateOf, cget_cset, h, PyQ.eqInt, PyQ.ofInt]
  · intro c v ts h
    by_cases hc : (v.mulInt 10).toInt ≥ ts.toInt <;>
      simp [Zonnsmart.update_attribute, Zonnsmart.first_chain, Zonnsmart.state_temp_change,
        asNum, state_change,
        temperature_change, upd, updN, runningStateOf, cget_cset, h, hc, PyQ.eqInt, PyQ.ofInt]

/-- Witness for `off_mode_forces_idle` at a concrete off-mode cache. -/
theorem off_mode_forces_idle_witness :
    runningStateOf (Saswell.update_attribute ⟨zonnOffCache, []⟩
        SASWELL_ROOM_TEMP_ATTR (.ofInt 200)).events = [.num (.ofInt 0)] ∧
    runningStateOf (Zonnsmart.update_attribute ⟨zonnOffCache, []⟩
        ZONNSMART_TEMPERATURE_ATTR (.ofInt 200)).events
        = [.num (.ofInt (if ((PyQ.ofInt 200).mulInt 10).toInt ≥ (PyQ.ofInt 2500).toInt
                          then 0 else 1))] :=
  ⟨(off_mode_forces_idle.1 zonnOffCache (.ofInt 200) (by decide)).1,
   off_mode_forces_idle.2 zonnOffCache (.ofInt 200) (.ofInt 2500) (by decide)⟩

/-! ## Claim C3 — behaviour when a needed value was never observed -/

/-- C3: the claim (from the spec's failure semantics) says the integer
comparison is never reached on a missing cache value and no error is
raised.  Evaluating the code at the failing inputs: on a fresh ZONNSMART
device the first current-temperature report reaches `int(None)` and raises
`TypeError` (the bus swallows it, so no derived-state update follows the
direct-mapped one), and a Saswell device in heat mode with no cached
setpoint likewise raises `TypeError` from `int(None + 2)`.  Moreover the
Saswell calculator in a non-heat mode emits an `Idle` update even though
neither temperature was ever observed. -/
theorem missing_value_reaches_comparison :
    Zonnsmart.state_temp_change ⟨[], []⟩ ZONNSMART_TEMPERATURE_ATTR (.ofInt 200)
        = .error .typeError ∧
    (Zonnsmart.update_attribute ⟨[], []⟩ ZONNSMART_TEMPERATURE_ATTR (.ofInt 200)).events
        = [((.tuyaManuf, ZONNSMART_TEMPERATURE_ATTR), .num (.ofInt 200)),
           ((.thermostat, localTemperatureId), .num (.ofInt 2000))] ∧
    Saswell.hass_climate_state_change ⟨[((.thermostat, systemModeId), .num (.ofInt 4))], []⟩
        SASWELL_ROOM_TEMP_ATTR (.ofInt 200) = .error .typeError ∧
    runningStateOf (Saswell.update_attribute ⟨[], []⟩
        SASWELL_ROOM_TEMP_ATTR (.ofInt 200)).events = [.num (.ofInt 0)] := by
  exact ⟨by decide, by decide, by decide, by decide⟩

/-! ## Claim C6 — documented defaults for missing reverse-mapping context -/

/-- C6: with nothing cached, `SiterwellThermostat.map_attribute` of
`system_mode = Heat (4)` falls back to `ProgrammingOperationMode.Simple`
and returns `{SITERWELL_MODE_ATTR: 2}`; and
`MoesWindowDetection.write_attributes` fills the never-observed fields with
the documented defaults 5 (timeout minutes), 50 (temperature, scaled by
`round(50/100) = 0` on the wire) and `False` (on/off), and the write still
succeeds with one outbound datapoint write. -/
theorem missing_context_uses_documented_defaults :
    Siterwell.map_attribute [] "system_mode" (.ofInt 4)
        = some (SITERWELL_MODE_ATTR, .ofInt 2) ∧
    Moes.MoesWindowDetection.write_attributes [] [("on_off", .ofInt 1)]
        = ([], .success [(MOES_WINDOW_DETECT_ATTR, .raw [.ofInt 5, .ofInt 0, .ofInt 1])]) ∧
    PyQ.round ((PyQ.ofInt 50).divInt 100) = 0 := by
  exact ⟨by decide, by decide, by decide⟩

/-! ## Claim C9 — `system_mode` writes on MoesThermostat ignore the value -/

/-- C9: for every written value `v`, `MoesThermostat.map_attribute` of
`system_mode` returns `{MOES_MODE_ATTR: p}` with `p` the cached
`operation_preset` (default `2`, Manual); in particular the result does not
depend on `v`. -/
theorem moes_system_mode_write_ignores_value :
    ∀ (c : Cache) (v : PyQ),
      Moes.map_attribute c "system_mode" v
        = some (MOES_MODE_ATTR,
                (cget c (.thermostat, operationPresetId)).getD (.num (.ofInt 2))) ∧
      ∀ w : PyQ, Moes.map_attribute c "system_mode" v = Moes.map_attribute c "system_mode" w :=
  fun _ _ => ⟨rfl, fun _ => rfl⟩

/-! ## Claim C10 — the ZONNSMART module-level global -/

/-- C10: `ZONNSMARTManufCluster.__init__` overwrites the module-level
global with the fresh instance; after constructing device 1 and then
device 2, an on/off helper write (here: the child-lock cluster of device 1)
and an opened-window-temperature write are both issued through device 2's
manufacturer cluster — the most recently constructed one, not the device
being written. -/
theorem zonnsmart_global_routes_to_last_constructed :
    (∀ (g : Option Nat) (d : Nat), Zonnsmart.ZONNSMARTManufCluster.init g d = some d) ∧
    (let g := Zonnsmart.ZONNSMARTManufCluster.init
                (Zonnsmart.ZONNSMARTManufCluster.init none 1) 2
     Zonnsmart.ZONNSMARTHelperOnOff.write_attributes g
         Zonnsmart.ZONNSMARTChildLock.get_attr_val_to_write [("on_off", .ofInt 1)]
       = .ok (.success [(2, ZONNSMART_CHILD_LOCK_ATTR, .ofInt 1)]) ∧
     Zonnsmart.ZONNSMARTWindowOpenedTemp.write_attributes g ⟨[], []⟩
         [(presentValueId, .ofInt 21)]
       = .ok (⟨[((.windowTempAnalog, presentValueId), .num (.ofInt 21))],
               [((.windowTempAnalog, presentValueId), .num (.ofInt 21))]⟩,
              [(2, ZONNSMART_OPENED_WINDOW_TEMP, .ofInt 210)]) ∧
     (2 : Nat) ≠ 1) := by
  exact ⟨fun _ _ => rfl, by decide, by decide, by decide⟩

/-! ## Claim C5 — unsupported writes fail without side effects -/

/-- Folding a function that never changes the accumulator. -/
theorem foldl_self {α β : Type} (l : List β) (a : α) :
    l.foldl (fun acc _ => acc) a = a := by
  induction l generalizing a with
  | nil => rfl
  | cons x xs ih => exact ih a

/-- The record loop of `MoesWindowDetection.write_attributes` leaves the
accumulator untouched when no record names a window-detection field. -/
theorem moesWindowFold_no_match (records : List (String × PyQ))
    (h : ∀ r ∈ records, r.1 ≠ "on_off" ∧ r.1 ≠ "window_detection_temperature" ∧
        r.1 ≠ "window_detection_timeout_minutes")
    (acc : Bool × PyQ × PyQ × PyQ) :
    records.foldl
      (fun (acc : Bool × PyQ × PyQ × PyQ) r =>
        if r.1 = "on_off" then (true, acc.2.1, acc.2.2.1, r.2)
        else if r.1 = "window_detection_temperature" then
          (true, acc.2.1, r.2.divInt 100, acc.2.2.2)
        else if r.1 = "window_detection_timeout_minutes" then
          (true, r.2, acc.2.2.1, acc.2.2.2)
        else acc) acc = acc := by
  induction records generalizing acc with
  | nil => rfl
  | cons r rest ih =>
      obtain ⟨h1, h2, h3⟩ := h r (by simp)
      simpa [h1, h2, h3] using ih (fun x hx => h x (by simp [hx])) acc

/-- C5: a write of attributes for which no translation rule produces a
manufacturer datapoint returns a `FAILURE` record per attribute, leaves the
attribute cache unchanged (the returned cache is the input cache) and
issues no outbound datapoint write: on `SaswellCustomOnOff` the base
`map_attribute` maps nothing for any attribute; on `MoesWindowDetection`
this holds whenever no record names one of the three window-detection
fields. -/
theorem unsupported_write_fails_without_side_effects :
    ∀ (c : Cache) (records : List (String × PyQ)), records ≠ [] →
      Saswell.SaswellCustomOnOff.write_attributes c records
          = (c, .failure (records.map (·.1))) ∧
      ((∀ r ∈ records, r.1 ≠ "on_off" ∧ r.1 ≠ "window_detection_temperature" ∧
          r.1 ≠ "window_detection_timeout_minutes") →
        Moes.MoesWindowDetection.write_attributes c records
          = (c, .failure (records.map (·.1)))) := by
  intro c records h
  constructor
  · simp [Saswell.SaswellCustomOnOff.write_attributes,
      Saswell.SaswellCustomOnOff.map_attribute, h, foldl_self]
  · intro hn
    simp [Moes.MoesWindowDetection.write_attributes, h, moesWindowFold_no_match records hn]

/-- Witness for `unsupported_write_fails_without_side_effects`: writing the
standard OnOff attribute `on_time`, which no rule maps. -/
theorem unsupported_write_fails_witness :
    Saswell.SaswellCustomOnOff.write_attributes [] [("on_time", .ofInt 5)]
        = ([], .failure ["on_time"]) ∧
    Moes.MoesWindowDetection.write_attributes [] [("on_time", .ofInt 5)]
        = ([], .failure ["on_time"]) :=
  ⟨(unsupported_write_fails_without_side_effects [] [("on_time", .ofInt 5)] (by decide)).1,
   (unsupported_write_fails_without_side_effects [] [("on_time", .ofInt 5)] (by decide)).2
     (by decide)⟩

/-! ## Claim C4 — schedule sub-field writes recompose the full payload -/

/-- The schedule serialization loop emits one payload entry per table
field. -/
theorem scheduleData_length (tbl : List (String × Nat × Int)) (num : Nat) (c : Cache)
    (a : String) (v : PyQ) :
    (Moes.scheduleData num tbl c a v).length = tbl.length := by
  induction tbl generalizing num with
  | nil => rfl
  | cons e rest ih => simp [Moes.scheduleData, ih]

/-- Closed form of the schedule serialization loop: entry `i` comes from
table field `i`, using the fresh value for the field being written and the
cached/default value otherwise, divided by 100 and rounded on the
temperature positions. -/
theorem scheduleData_get? (tbl : List (String × Nat × Int)) (num : Nat) (c : Cache)
    (a : String) (v : PyQ) (i : Nat) :
    (Moes.scheduleData num tbl c a v).get? i =
      (tbl.get? i).map fun e =>
        let x : PyQ := if e.1 = a then v
                       else cgetNumD c (.thermostat, e.2.1) (.ofInt e.2.2)
        if (num + i) % 3 = 0 then .ofInt (PyQ.round (x.divInt 100)) else x := by
  induction tbl generalizing num i with
  | nil => simp [Moes.scheduleData]
  | cons e rest ih =>
      cases i with
      | zero =>
          simp only [Moes.scheduleData, List.get?, Nat.add_zero, Option.map_some]
          by_cases h1 : (num % 3 = 0) <;> by_cases h2 : (e.1 = a) <;> simp [h1, h2]
      | succ j =>
          simp only [Moes.scheduleData, List.get?]
          rw [ih (num + 1) j]
          have : num + 1 + j = num + (j + 1) := by omega
          rw [this]

/-- C4, counterexample.  The claim says a never-observed field of the
outgoing schedule payload carries "its documented default from
WORKDAY_SCHEDULE_ATTRS" byte-for-byte.  Writing `workday_schedule_1_hour`
with an empty cache: the payload position of `workday_schedule_6_temperature`
(the first byte) carries `round(1500 / 100) = 15`, not the documented
default `1500` — temperature fields are rescaled, whether written, cached
or defaulted. -/
theorem moes_schedule_default_not_byte_for_byte :
    Moes.map_attribute [] "workday_schedule_1_hour" (.ofInt 7)
      = some (MOES_SCHEDULE_WORKDAY_ATTR,
        .raw [.ofInt 15, .ofInt 0, .ofInt 22, .ofInt 20, .ofInt 30, .ofInt 17,
              .ofInt 15, .ofInt 30, .ofInt 12, .ofInt 15, .ofInt 30, .ofInt 11,
              .ofInt 15, .ofInt 0, .ofInt 8, .ofInt 20, .ofInt 0, .ofInt 7]) ∧
    (Moes.WORKDAY_SCHEDULE_ATTRS.get? 0).map (·.2.2) = some 1500 ∧
    (PyQ.ofInt 15) ≠ .ofInt 1500 := by
  exact ⟨by decide, by decide, by decide⟩

/-- C4, amended.  Writing a single workday or weekend schedule sub-field on
`MoesThermostat` yields exactly one outgoing datapoint payload of 18
entries in which every entry equals `scheduleSlotSpec`: the written field
carries the new value and each of the other 17 fields carries that field's
cached value (or its documented default from
`WORKDAY_SCHEDULE_ATTRS`/`WEEKEND_SCHEDULE_ATTRS` when never observed) —
with every temperature field, not only the written one, serialized as
`round(x / 100)`; the hour/minute fields are carried verbatim. -/
theorem moes_schedule_write_composition :
    ∀ (c : Cache) (a : String) (v : PyQ),
      ((Moes.WORKDAY_SCHEDULE_ATTRS.find? (fun p => p.1 == a)).isSome →
        ∃ pl, Moes.map_attribute c a v = some (MOES_SCHEDULE_WORKDAY_ATTR, .raw pl) ∧
          pl.length = 18 ∧
          ∀ i, pl.get? i = scheduleSlotSpec Moes.WORKDAY_SCHEDULE_ATTRS c a v i) ∧
      ((Moes.WEEKEND_SCHEDULE_ATTRS.find? (fun p => p.1 == a)).isSome →
        ∃ pl, Moes.map_attribute c a v = some (MOES_SCHEDULE_WEEKEND_ATTR, .raw pl) ∧
          pl.length = 18 ∧
          ∀ i, pl.get? i = scheduleSlotSpec Moes.WEEKEND_SCHEDULE_ATTRS c a v i) := by
  intro c a v
  constructor
  · intro h
    rw [List.find?_isSome] at h
    obtain ⟨x, hx, hpx⟩ := h
    rw [beq_iff_eq] at hpx
    subst hpx
    fin_cases hx <;>
      exact ⟨_, rfl, by rw [scheduleData_length]; rfl,
        fun i => by rw [scheduleData_get?]; simp [scheduleSlotSpec]⟩
  · intro h
    rw [List.find?_isSome] at h
    obtain ⟨x, hx, hpx⟩ := h
    rw [beq_iff_eq] at hpx
    subst hpx
    fin_cases hx <;>
      exact ⟨_, rfl, by rw [scheduleData_length]; rfl,
        fun i => by rw [scheduleData_get?]; simp [scheduleSlotSpec]⟩

/-- Witness for `moes_schedule_write_composition`: writing
`workday_schedule_1_hour` on an empty cache. -/
theorem moes_schedule_write_composition_witness :
    ∃ pl, Moes.map_attribute [] "workday_schedule_1_hour" (.ofInt 7)
        = some (MOES_SCHEDULE_WORKDAY_ATTR, .raw pl) ∧ pl.length = 18 ∧
        ∀ i, pl.get? i =
          scheduleSlotSpec Moes.WORKDAY_SCHEDULE_ATTRS [] "workday_schedule_1_hour"
            (.ofInt 7) i :=
  (moes_schedule_write_composition [] "workday_schedule_1_hour" (.ofInt 7)).1 (by decide)

/-! ## Claim C8 — determinism of the update dispatcher

The dispatcher is embedded as a pure function, so determinism is expressed
as representation independence: two runs that start from the same cache
*as a map* (whatever the underlying association lists) over the same report
sequence produce identical event traces.  `DevRel` is preserved by every
handler. -/

theorem devRel_upd {a b : DevState} (h : DevRel a b) (cl : Cl) (n : Nat) (v : CVal) :
    DevRel (upd a cl n v) (upd b cl n v) := by
  refine ⟨fun k => ?_, by simp [upd, h.2]⟩
  by_cases hk : ((cl, n) : AKey) = k <;> simp [upd, cget_cset, hk, h.1 k]

theorem devRel_updN {a b : DevState} (h : DevRel a b) (cl : Cl) (n : Nat) (q : PyQ) :
    DevRel (updN a cl n q) (updN b cl n q) := devRel_upd h cl n (.num q)

theorem devRel_state_change {a b : DevState} (h : DevRel a b) (v : PyQ) :
    DevRel (state_change a v) (state_change b v) := by
  unfold state_change
  split_ifs <;> exact devRel_updN (devRel_updN h _ _ _) _ _ _

theorem devRel_temperature_change {a b : DevState} (h : DevRel a b) (n : Nat) (v : PyQ) :
    DevRel (temperature_change a n v) (temperature_change b n v) :=
  devRel_updN h _ _ _

theorem devRel_on_off_event {a b : DevState} (h : DevRel a b) (v : PyQ) :
    DevRel (Saswell.on_off_event a v) (Saswell.on_off_event b v) := by
  unfold Saswell.on_off_event
  split_ifs <;> exact devRel_updN (devRel_updN (devRel_updN h _ _ _) _ _ _) _ _ _

theorem devRel_ui_child_lock_change {a b : DevState} (h : DevRel a b) (v : PyQ) :
    DevRel (ui_child_lock_change a v) (ui_child_lock_change b v) := devRel_updN h _ _ _

theorem devRel_battery_change {a b : DevState} (h : DevRel a b) (v : PyQ) :
    DevRel (battery_change a v) (battery_change b v) := devRel_updN h _ _ _

theorem devRel_battery_alarm_event {a b : DevState} (h : DevRel a b) (v : PyQ) :
    DevRel (battery_alarm_event a v) (battery_alarm_event b v) := devRel_updN h _ _ _

theorem devRel_hass_caught {a b : DevState} (h : DevRel a b) (aid : Nat) (v : PyQ) :
    DevRel (match Saswell.hass_climate_state_change a aid v with
            | .ok t => t | .error _ => a)
           (match Saswell.hass_climate_state_change b aid v with
            | .ok t => t | .error _ => b) := by
  unfold Saswell.hass_climate_state_change
  rw [h.1 (Cl.thermostat, systemModeId), h.1 (Cl.thermostat, localTemperatureId),
      h.1 (Cl.thermostat, occupiedHeatingSetpointId)]
  by_cases h1 : optEqInt (cget b.cache (Cl.thermostat, systemModeId)) 4
  · simp only [h1, not_true_eq_false, if_false]
    by_cases h2 : aid = SASWELL_ROOM_TEMP_ATTR
    · simp only [h2, if_true]
      cases asNum (cget b.cache (Cl.thermostat, occupiedHeatingSetpointId)) <;>
        simp <;> first
          | exact h
          | exact devRel_state_change h _
    · simp only [h2, if_false]
      cases asNum (cget b.cache (Cl.thermostat, localTemperatureId)) <;>
        simp <;> first
          | exact h
          | exact devRel_state_change h _
  · simp only [h1, not_false_eq_true, if_true]
    exact devRel_state_change h _

theorem devRel_saswell_direct_mapped {a b : DevState} (h : DevRel a b) (aid : Nat) (v : PyQ) :
    DevRel (Saswell.direct_mapped_update a aid v) (Saswell.direct_mapped_update b aid v) := by
  unfold Saswell.direct_mapped_update
  split_ifs <;> first
    | exact devRel_temperature_change h _ _
    | exact h

theorem devRel_saswell_step {a b : DevState} (h : DevRel a b) (aid : Nat) (v : PyQ) :
    DevRel (Saswell.update_attribute a aid v) (Saswell.update_attribute b aid v) := by
  have h2 : DevRel (Saswell.direct_mapped_update (updN a .tuyaManuf aid v) aid v)
      (Saswell.direct_mapped_update (updN b .tuyaManuf aid v) aid v) :=
    devRel_saswell_direct_mapped (devRel_updN h _ _ _) aid v
  by_cases e1 : aid = SASWELL_ONOFF_ATTR
  · subst e1; exact devRel_on_off_event h2 v
  by_cases e2 : aid = SASWELL_SCHEDULE_MODE_ATTR
  · subst e2; exact devRel_updN h2 _ _ _
  by_cases e3 : aid = SASWELL_AWAY_MODE_ATTR
  · subst e3; exact devRel_updN h2 _ _ _
  by_cases e4 : aid = SASWELL_CHILD_LOCK_ATTR
  · subst e4; exact devRel_updN (devRel_ui_child_lock_change h2 v) _ _ _
  by_cases e5 : aid = SASWELL_WINDOW_DETECT_ATTR
  · subst e5; exact devRel_updN h2 _ _ _
  by_cases e6 : aid = SASWELL_ANTI_FREEZE_ATTR
  · subst e6; exact devRel_updN h2 _ _ _
  by_cases e7 : aid = SASWELL_LIMESCALE_PROTECT_ATTR
  · subst e7; exact devRel_updN h2 _ _ _
  by_cases e8 : aid = SASWELL_BATTERY_ALARM_ATTR
  · subst e8; exact devRel_battery_alarm_event h2 v
  by_cases e9 : aid = SASWELL_TEMP_CORRECTION_ATTR
  · subst e9; exact devRel_updN h2 _ _ _
  by_cases e10 : aid = SASWELL_ROOM_TEMP_ATTR ∨ aid = SASWELL_TARGET_TEMP_ATTR
  · rcases e10 with e | e <;> subst e <;> exact devRel_hass_caught h2 _ v
  simp only [Saswell.update_attribute]
  simp only [if_neg e1, if_neg e2, if_neg e3, if_neg e4, if_neg e5, if_neg e6, if_neg e7,
      if_neg e8, if_neg e9, if_neg e10]
  exact h2

theorem devRel_mode_change {a b : DevState} (h : DevRel a b) (aid : Nat) (v : PyQ) :
    DevRel (Zonnsmart.mode_change a aid v) (Zonnsmart.mode_change b aid v) := by
  unfold Zonnsmart.mode_change
  split_ifs <;> first
    | exact devRel_updN (devRel_updN h _ _ _) _ _ _
    | exact devRel_updN h _ _ _
    | exact h

theorem devRel_system_mode_change {a b : DevState} (h : DevRel a b) (v : Bool) :
    DevRel (Zonnsmart.system_mode_change a v) (Zonnsmart.system_mode_change b v) :=
  devRel_updN h _ _ _

theorem devRel_stc_caught {a b : DevState} (h : DevRel a b) (aid : Nat) (v : PyQ) :
    DevRel (match Zonnsmart.state_temp_change a aid v with
            | .ok t => t | .error _ => a)
           (match Zonnsmart.state_temp_change b aid v with
            | .ok t => t | .error _ => b) := by
  unfold Zonnsmart.state_temp_change
  rw [h.1 (Cl.thermostat, occupiedHeatingSetpointId), h.1 (Cl.thermostat, localTemperatureId)]
  by_cases h1 : aid = ZONNSMART_TEMPERATURE_ATTR
  · simp only [h1, if_true]
    cases asNum (cget b.cache (Cl.thermostat, occupiedHeatingSetpointId)) <;>
      simp <;> first
        | exact h
        | exact devRel_state_change h _
  by_cases h2 : aid = ZONNSMART_TARGET_TEMP_ATTR
  · simp only [h1, h2, if_false, if_true]
    cases asNum (cget b.cache (Cl.thermostat, localTemperatureId)) <;>
      simp <;> first
        | exact h
        | exact devRel_state_change h _
  · simp only [h1, h2, if_false]
    exact h

theorem devRel_zonn_first_chain {a b : DevState} (h : DevRel a b) (aid : Nat) (v : PyQ) :
    DevRel (Zonnsmart.first_chain a aid v) (Zonnsmart.first_chain b aid v) := by
  by_cases e1 : aid = ZONNSMART_TEMPERATURE_ATTR
  · subst e1; exact devRel_temperature_change h _ _
  by_cases e2 : aid = ZONNSMART_TEMPERATURE_CALIBRATION_ATTR
  · subst e2; exact devRel_temperature_change h _ _
  by_cases e3 : aid = ZONNSMART_TARGET_TEMP_ATTR
  · subst e3; exact devRel_temperature_change h _ _
  by_cases e4 : aid = ZONNSMART_HOLIDAY_TEMP_ATTR
  · subst e4; exact devRel_temperature_change h _ _
  by_cases e5 : aid = ZONNSMART_FAULT_DETECTION_ATTR
  · subst e5; exact devRel_temperature_change h _ _
  by_cases e6 : aid = ZONNSMART_WINDOW_DETECT_ATTR
  · subst e6; exact devRel_updN h _ _ _
  by_cases e7 : aid = ZONNSMART_OPENED_WINDOW_TEMP
  · subst e7; exact devRel_updN h _ _ _
  by_cases e8 : aid = ZONNSMART_MODE_ATTR ∨ aid = ZONNSMART_FROST_PROTECT_ATTR
  · rcases e8 with e | e
    · subst e; exact devRel_mode_change h ZONNSMART_MODE_ATTR v
    · subst e; exact devRel_mode_change h ZONNSMART_FROST_PROTECT_ATTR v
  by_cases e9 : aid = ZONNSMART_HEATING_STOPPING_ATTR
  · subst e9; exact devRel_system_mode_change h _
  by_cases e10 : aid = ZONNSMART_CHILD_LOCK_ATTR
  · subst e10; exact devRel_updN (devRel_ui_child_lock_change h v) _ _ _
  by_cases e11 : aid = ZONNSMART_BATTERY_ATTR
  · subst e11; exact devRel_battery_change h v
  by_cases e12 : aid = ZONNSMART_ONLINE_MODE_ENUM_ATTR
  · subst e12; exact devRel_updN h _ _ _
  by_cases e13 : aid = ZONNSMART_BOOST_TIME_ATTR
  · subst e13; exact devRel_updN h _ _ _
  simp only [Zonnsmart.first_chain, if_neg e1, if_neg e2, if_neg e3, if_neg e4, if_neg e5,
    if_neg e6, if_neg e7, if_neg e8, if_neg e9, if_neg e10, if_neg e11, if_neg e12,
    if_neg e13]
  exact h

theorem devRel_zonn_step {a b : DevState} (h : DevRel a b) (aid : Nat) (v : PyQ) :
    DevRel (Zonnsmart.update_attribute a aid v) (Zonnsmart.update_attribute b aid v) := by
  have h2 : DevRel (Zonnsmart.first_chain (updN a .tuyaManuf aid v) aid v)
      (Zonnsmart.first_chain (updN b .tuyaManuf aid v) aid v) :=
    devRel_zonn_first_chain (devRel_updN h _ _ _) aid v
  by_cases e1 : aid = ZONNSMART_TEMPERATURE_CALIBRATION_ATTR
  · subst e1; exact devRel_updN h2 _ _ _
  by_cases e2 : aid = ZONNSMART_TEMPERATURE_ATTR ∨ aid = ZONNSMART_TARGET_TEMP_ATTR
  · rcases e2 with e | e
    · subst e; exact devRel_stc_caught h2 ZONNSMART_TEMPERATURE_ATTR v
    · subst e; exact devRel_stc_caught h2 ZONNSMART_TARGET_TEMP_ATTR v
  simp only [Zonnsmart.update_attribute, if_neg e1, if_neg e2]
  exact h2

theorem devRel_saswell_run {a b : DevState} (h : DevRel a b) (reports : List (Nat × PyQ)) :
    DevRel (Saswell.run a reports) (Saswell.run b reports) := by
  induction reports generalizing a b with
  | nil => exact h
  | cons r rest ih => exact ih (devRel_saswell_step h r.1 r.2)

theorem devRel_zonn_run {a b : DevState} (h : DevRel a b) (reports : List (Nat × PyQ)) :
    DevRel (Zonnsmart.run a reports) (Zonnsmart.run b reports) := by
  induction reports generalizing a b with
  | nil => exact h
  | cons r rest ih => exact ih (devRel_zonn_step h r.1 r.2)

/-- C8: for a fixed initial cache state and a fixed sequence of inbound
datapoint reports, the ZONNSMART and Saswell update dispatchers emit
identical sequences of standard-attribute updates (same clusters,
attribute ids, values and order) on every run: the trace is a function of
the cache viewed as a map and of the report list alone. -/
theorem dispatcher_determinism :
    ∀ (c1 c2 : Cache), cequiv c1 c2 → ∀ reports : List (Nat × PyQ),
      (Zonnsmart.run ⟨c1, []⟩ reports).events = (Zonnsmart.run ⟨c2, []⟩ reports).events ∧
      (Saswell.run ⟨c1, []⟩ reports).events = (Saswell.run ⟨c2, []⟩ reports).events :=
  fun c1 c2 h reports =>
    ⟨(devRel_zonn_run (show DevRel ⟨c1, []⟩ ⟨c2, []⟩ from ⟨h, rfl⟩) reports).2,
     (devRel_saswell_run (show DevRel ⟨c1, []⟩ ⟨c2, []⟩ from ⟨h, rfl⟩) reports).2⟩

/-- Witness for `dispatcher_determinism`: two different association lists
representing the same cache, and a two-report sequence. -/
theorem dispatcher_determinism_witness :
    (Zonnsmart.run ⟨[((Cl.thermostat, systemModeId), .num (.ofInt 0)),
          ((Cl.thermostat, systemModeId), .num (.ofInt 4))], []⟩
        [(0x0210, .ofInt 25), (0x0266, .ofInt 20)]).events
      = (Zonnsmart.run ⟨[((Cl.thermostat, systemModeId), .num (.ofInt 0))], []⟩
        [(0x0210, .ofInt 25), (0x0266, .ofInt 20)]).events ∧
    (Saswell.run ⟨[((Cl.thermostat, systemModeId), .num (.ofInt 0)),
          ((Cl.thermostat, systemModeId), .num (.ofInt 4))], []⟩
        [(0x0210, .ofInt 25), (0x0266, .ofInt 20)]).events
      = (Saswell.run ⟨[((Cl.thermostat, systemModeId), .num (.ofInt 0))], []⟩
        [(0x0210, .ofInt 25), (0x0266, .ofInt 20)]).events :=
  dispatcher_determinism _ _
    (by
      intro k
      by_cases hk : ((Cl.thermostat, systemModeId) : AKey) = k <;> simp [cget, cset, hk])
    [(0x0210, .ofInt 25), (0x0266, .ofInt 20)]

theorem saswell_idem (s : DevState) (aid : Nat) (v : PyQ) :
    cequiv (Saswell.update_attribute (Saswell.update_attribute s aid v) aid v).cache
           (Saswell.update_attribute s aid v).cache := by
  by_cases e1 : aid = SASWELL_ONOFF_ATTR
  · subst e1
    by_cases hv : v.eqInt 1 <;>
      · intro k
        simp [Saswell.update_attribute, Saswell.direct_mapped_update,
          Saswell.on_off_event, temperature_change, state_change, updN, upd, hv, cget_cset]
        split_ifs <;> rfl
  by_cases e2 : aid = SASWELL_SCHEDULE_MODE_ATTR
  · subst e2
    intro k
    simp [Saswell.update_attribute, Saswell.direct_mapped_update, updN, upd, cget_cset]
    split_ifs <;> rfl
  by_cases e3 : aid = SASWELL_AWAY_MODE_ATTR
  · subst e3
    intro k
    simp [Saswell.update_attribute, Saswell.direct_mapped_update, updN, upd, cget_cset]
    split_ifs <;> rfl
  by_cases e4 : aid = SASWELL_CHILD_LOCK_ATTR
  · subst e4
    intro k
    simp [Saswell.update_attribute, Saswell.direct_mapped_update, ui_child_lock_change,
      updN, upd, cget_cset]
    split_ifs <;> rfl
  by_cases e5 : aid = SASWELL_WINDOW_DETECT_ATTR
  · subst e5
    intro k
    simp [Saswell.update_attribute, Saswell.direct_mapped_update, updN, upd, cget_cset]
    split_ifs <;> rfl
  by_cases e6 : aid = SASWELL_ANTI_FREEZE_ATTR
  · subst e6
    intro k
    simp [Saswell.update_attribute, Saswell.direct_mapped_update, updN, upd, cget_cset]
    split_ifs <;> rfl
  by_cases e7 : aid = SASWELL_LIMESCALE_PROTECT_ATTR
  · subst e7
    intro k
    simp [Saswell.update_attribute, Saswell.direct_mapped_update, updN, upd, cget_cset]
    split_ifs <;> rfl
  by_cases e8 : aid = SASWELL_BATTERY_ALARM_ATTR
  · subst e8
    intro k
    simp [Saswell.update_attribute, Saswell.direct_mapped_update, battery_alarm_event,
      updN, upd, cget_cset]
    split_ifs <;> rfl
  by_cases e9 : aid = SASWELL_TEMP_CORRECTION_ATTR
  · subst e9
    intro k
    simp [Saswell.update_attribute, Saswell.direct_mapped_update, temperature_change,
      updN, upd, cget_cset]
    split_ifs <;> rfl
  by_cases e10 : aid = SASWELL_ROOM_TEMP_ATTR
  · subst e10
    by_cases hsys : optEqInt (cget s.cache (Cl.thermostat, systemModeId)) 4
    · rcases hsp : asNum (cget s.cache (Cl.thermostat, occupiedHeatingSetpointId)) with _ | ts
      · intro k
        simp [Saswell.update_attribute, Saswell.direct_mapped_update,
          Saswell.hass_climate_state_change, temperature_change, state_change,
          updN, upd, hsys, hsp, cget_cset]
        split_ifs <;> rfl
      · by_cases hcmp : (v.mulInt 10).toInt ≥ ((ts.addInt 2)).toInt <;>
          · intro k
            simp [Saswell.update_attribute, Saswell.direct_mapped_update,
              Saswell.hass_climate_state_change, temperature_change, state_change,
              updN, upd, hsys, hsp, hcmp, cget_cset, PyQ.eqInt, PyQ.ofInt]
            split_ifs <;> rfl
    · intro k
      simp [Saswell.update_attribute, Saswell.direct_mapped_update,
        Saswell.hass_climate_state_change, temperature_change, state_change,
        updN, upd, hsys, cget_cset, PyQ.eqInt, PyQ.ofInt]
      split_ifs <;> rfl
  by_cases e11 : aid = SASWELL_TARGET_TEMP_ATTR
  · subst e11
    by_cases hsys : optEqInt (cget s.cache (Cl.thermostat, systemModeId)) 4
    · rcases htc : asNum (cget s.cache (Cl.thermostat, localTemperatureId)) with _ | tc
      · intro k
        simp [Saswell.update_attribute, Saswell.direct_mapped_update,
          Saswell.hass_climate_state_change, temperature_change, state_change,
          updN, upd, hsys, htc, cget_cset]
        split_ifs <;> rfl
      · by_cases hcmp : tc.toInt ≥ (((v.mulInt 10).addInt 2)).toInt <;>
          · intro k
            simp [Saswell.update_attribute, Saswell.direct_mapped_update,
              Saswell.hass_climate_state_change, temperature_change, state_change,
              updN, upd, hsys, htc, hcmp, cget_cset, PyQ.eqInt, PyQ.ofInt]
            split_ifs <;> rfl
    · intro k
      simp [Saswell.update_attribute, Saswell.direct_mapped_update,
        Saswell.hass_climate_state_change, temperature_change, state_change,
        updN, upd, hsys, cget_cset, PyQ.eqInt, PyQ.ofInt]
      split_ifs <;> rfl
  -- no recognised datapoint: only the manufacturer cache is written
  intro k
  simp only [Saswell.update_attribute, Saswell.direct_mapped_update,
    if_neg e1, if_neg e2, if_neg e3, if_neg e4, if_neg e5, if_neg e6, if_neg e7,
    if_neg e8, if_neg e9, if_neg e10, if_neg e11,
    if_neg (not_or_intro e10 e11), updN, upd, cget_cset]
  split_ifs <;> rfl

/-! ## Claim C7 — delivering the same report twice equals delivering it once -/

/-- Apply a list of `_update_attribute` writes in order. -/
def writeChain (s : DevState) (ws : List (AKey × CVal)) : DevState :=
  ws.foldl (fun t w => upd t w.1.1 w.1.2 w.2) s

/-- The last write to key `k` in a write list, if any. -/
def lastHit (ws : List (AKey × CVal)) (k : AKey) : Option CVal :=
  ws.foldl (fun acc w => if w.1 = k then some w.2 else acc) none

theorem lastHit_acc (ws : List (AKey × CVal)) (a : Option CVal) (k : AKey) :
    ws.foldl (fun acc w => if w.1 = k then some w.2 else acc) a
      = match lastHit ws k with
        | some v => some v
        | none => a := by
  induction ws generalizing a with
  | nil => rfl
  | cons w ws ih =>
      show ws.foldl _ (if w.1 = k then some w.2 else a) = _
      rw [ih]
      have h2 : lastHit (w :: ws) k
          = match lastHit ws k with
            | some v => some v
            | none => (if w.1 = k then some w.2 else none) := by
        show ws.foldl _ (if w.1 = k then some w.2 else none) = _
        rw [ih]
      rw [h2]
      cases lastHit ws k <;> by_cases hw : w.1 = k <;> simp [hw]

theorem cget_writeChain (ws : List (AKey × CVal)) (s : DevState) (k : AKey) :
    cget (writeChain s ws).cache k
      = match lastHit ws k with
        | some v => some v
        | none => cget s.cache k := by
  induction ws generalizing s with
  | nil => rfl
  | cons w ws ih =>
      show cget (writeChain (upd s w.1.1 w.1.2 w.2) ws).cache k = _
      rw [ih]
      have h2 : lastHit (w :: ws) k
          = match lastHit ws k with
            | some v => some v
            | none => (if w.1 = k then some w.2 else none) := by
        show ws.foldl _ (if w.1 = k then some w.2 else none) = _
        rw [lastHit_acc]
      rw [h2]
      have h3 : cget (upd s w.1.1 w.1.2 w.2).cache k = if w.1 = k then some w.2 else cget s.cache k := by
        simp [upd, cget_cset]
      rw [h3]
      cases lastHit ws k <;> by_cases hw : w.1 = k <;> simp [hw]

/-- Replaying the same write list is invisible in the cache: last value
wins. -/
theorem writeChain_idem (ws : List (AKey × CVal)) (s : DevState) :
    cequiv (writeChain (writeChain s ws) ws).cache (writeChain s ws).cache := by
  intro k
  rw [cget_writeChain, cget_writeChain]
  cases lastHit ws k <;> simp

set_option linter.unreachableTactic false in
set_option linter.unusedTactic false in
set_option maxHeartbeats 2000000 in
theorem moes_idem (s : DevState) (aid : Nat) (mv : CVal) :
    cequiv (Moes.update_attribute (Moes.update_attribute s aid mv) aid mv).cache
           (Moes.update_attribute s aid mv).cache := by
  cases mv with
  | num q =>
    by_cases e1 : aid = MOES_TEMPERATURE_ATTR
    · subst e1
      intro k
      simp [Moes.update_attribute, Moes.first_chain, Moes.onNum, temperature_change,
        updN, upd, cget_cset]
      split_ifs <;> intros <;> first | rfl | simp_all
    by_cases e2 : aid = MOES_TARGET_TEMP_ATTR
    · subst e2
      intro k
      simp [Moes.update_attribute, Moes.first_chain, Moes.onNum, temperature_change,
        updN, upd, cget_cset]
      split_ifs <;> intros <;> first | rfl | simp_all
    by_cases e3 : aid = MOES_AWAY_TEMP_ATTR
    · subst e3
      intro k
      simp [Moes.update_attribute, Moes.first_chain, Moes.onNum, temperature_change,
        updN, upd, cget_cset]
      split_ifs <;> intros <;> first | rfl | simp_all
    by_cases e4 : aid = MOES_COMFORT_TEMP_ATTR
    · subst e4
      intro k
      simp [Moes.update_attribute, Moes.first_chain, Moes.onNum, temperature_change,
        updN, upd, cget_cset]
      split_ifs <;> intros <;> first | rfl | simp_all
    by_cases e5 : aid = MOES_ECO_TEMP_ATTR
    · subst e5
      intro k
      simp [Moes.update_attribute, Moes.first_chain, Moes.onNum, temperature_change,
        updN, upd, cget_cset]
      split_ifs <;> intros <;> first | rfl | simp_all
    by_cases e6 : aid = MOES_TEMP_CALIBRATION_ATTR
    · subst e6
      intro k
      simp [Moes.update_attribute, Moes.first_chain, Moes.onNum, temperature_change,
        updN, upd, cget_cset]
      split_ifs <;> intros <;> first | rfl | simp_all
    by_cases e7 : aid = MOES_MIN_TEMPERATURE_ATTR
    · subst e7
      intro k
      simp [Moes.update_attribute, Moes.first_chain, Moes.onNum, temperature_change,
        updN, upd, cget_cset]
      split_ifs <;> intros <;> first | rfl | simp_all
    by_cases e8 : aid = MOES_MAX_TEMPERATURE_ATTR
    · subst e8
      intro k
      simp [Moes.update_attribute, Moes.first_chain, Moes.onNum, temperature_change,
        updN, upd, cget_cset]
      split_ifs <;> intros <;> first | rfl | simp_all
    by_cases e9 : aid = MOES_VALVE_STATE_ATTR
    · subst e9
      by_cases hq : q.eqInt 0 <;>
        · intro k
          simp [Moes.update_attribute, Moes.first_chain, Moes.onNum, temperature_change,
            state_change, updN, upd, hq, cget_cset]
          split_ifs <;> intros <;> first | rfl | simp_all
    by_cases e10 : aid = MOES_AWAY_DAYS_ATTR
    · subst e10
      intro k
      simp [Moes.update_attribute, Moes.first_chain, Moes.onNum, temperature_change,
        updN, upd, cget_cset]
      split_ifs <;> intros <;> first | rfl | simp_all
    by_cases e11 : aid = MOES_BOOST_TIME_ATTR
    · subst e11
      intro k
      simp [Moes.update_attribute, Moes.first_chain, Moes.onNum, temperature_change,
        updN, upd, cget_cset]
      split_ifs <;> intros <;> first | rfl | simp_all
    by_cases e12 : aid = MOES_MODE_ATTR
    · subst e12
      intro k
      simp [Moes.update_attribute, Moes.first_chain, Moes.onNum, temperature_change,
        Moes.mode_change, updN, upd, cget_cset]
      split_ifs <;> intros <;> first | rfl | simp_all
    by_cases e13 : aid = MOES_WEEK_FORMAT_ATTR
    · subst e13
      intro k
      simp [Moes.update_attribute, Moes.first_chain, Moes.onNum, temperature_change,
        updN, upd, cget_cset]
      split_ifs <;> intros <;> first | rfl | simp_all
    by_cases e14 : aid = MOES_FORCE_VALVE_ATTR
    · subst e14
      intro k
      simp [Moes.update_attribute, Moes.first_chain, Moes.onNum, temperature_change,
        updN, upd, cget_cset]
      split_ifs <;> intros <;> first | rfl | simp_all
    by_cases e15 : aid = MOES_SCHEDULE_WORKDAY_ATTR ∨ aid = MOES_SCHEDULE_WEEKEND_ATTR
    · rcases e15 with e | e <;>
        · subst e
          intro k
          simp [Moes.update_attribute, Moes.first_chain, updN, upd, cget_cset]
          split_ifs <;> intros <;> first | rfl | simp_all
    by_cases e16 : aid = MOES_WINDOW_DETECT_ATTR
    · subst e16
      intro k
      simp [Moes.update_attribute, Moes.first_chain, updN, upd, cget_cset]
      split_ifs <;> intros <;> first | rfl | simp_all
    by_cases e17 : aid = MOES_CHILD_LOCK_ATTR
    · subst e17
      intro k
      simp [Moes.update_attribute, Moes.first_chain, Moes.onNum, ui_child_lock_change,
        updN, upd, cget_cset]
      split_ifs <;> intros <;> first | rfl | simp_all
    by_cases e18 : aid = MOES_AUTO_LOCK_ATTR
    · subst e18
      intro k
      simp [Moes.update_attribute, Moes.first_chain, Moes.onNum, updN, upd, cget_cset]
      split_ifs <;> intros <;> first | rfl | simp_all
    by_cases e19 : aid = MOES_BATTERY_LOW_ATTR
    · subst e19
      intro k
      simp [Moes.update_attribute, Moes.first_chain, Moes.onNum, battery_change,
        updN, upd, cget_cset]
      split_ifs <;> intros <;> first | rfl | simp_all
    intro k
    simp only [Moes.update_attribute, Moes.first_chain,
      if_neg e1, if_neg e2, if_neg e3, if_neg e4, if_neg e5, if_neg e6, if_neg e7,
      if_neg e8, if_neg e9, if_neg e10, if_neg e11, if_neg e12, if_neg e13, if_neg e14,
      if_neg e15, if_neg e16, if_neg e17, if_neg e18, if_neg e19, updN, upd, cget_cset]
    split_ifs <;> intros <;> first | rfl | simp_all
  | raw l =>
    by_cases e15 : aid = MOES_SCHEDULE_WORKDAY_ATTR ∨ aid = MOES_SCHEDULE_WEEKEND_ATTR
    · rcases e15 with e | e <;> subst e
      · by_cases hl : 18 ≤ l.length
        · have hrew : ∀ t : DevState,
              Moes.update_attribute t MOES_SCHEDULE_WORKDAY_ATTR (.raw l)
                = writeChain t
                  [((Cl.tuyaManuf, MOES_SCHEDULE_WORKDAY_ATTR), .raw l),
                   ((Cl.thermostat, 0x4110), .num (Moes.mask63 (l.getD 17 (.ofInt 0)))),
                   ((Cl.thermostat, 0x4111), .num (l.getD 16 (.ofInt 0))),
                   ((Cl.thermostat, 0x4112), .num ((l.getD 15 (.ofInt 0)).mulInt 100)),
                   ((Cl.thermostat, 0x4120), .num (Moes.mask63 (l.getD 14 (.ofInt 0)))),
                   ((Cl.thermostat, 0x4121), .num (l.getD 13 (.ofInt 0))),
                   ((Cl.thermostat, 0x4122), .num ((l.getD 12 (.ofInt 0)).mulInt 100)),
                   ((Cl.thermostat, 0x4130), .num (Moes.mask63 (l.getD 11 (.ofInt 0)))),
                   ((Cl.thermostat, 0x4131), .num (l.getD 10 (.ofInt 0))),
                   ((Cl.thermostat, 0x4132), .num ((l.getD 9 (.ofInt 0)).mulInt 100)),
                   ((Cl.thermostat, 0x4140), .num (Moes.mask63 (l.getD 8 (.ofInt 0)))),
                   ((Cl.thermostat, 0x4141), .num (l.getD 7 (.ofInt 0))),
                   ((Cl.thermostat, 0x4142), .num ((l.getD 6 (.ofInt 0)).mulInt 100)),
                   ((Cl.thermostat, 0x4150), .num (Moes.mask63 (l.getD 5 (.ofInt 0)))),
                   ((Cl.thermostat, 0x4151), .num (l.getD 4 (.ofInt 0))),
                   ((Cl.thermostat, 0x4152), .num ((l.getD 3 (.ofInt 0)).mulInt 100)),
                   ((Cl.thermostat, 0x4160), .num (Moes.mask63 (l.getD 2 (.ofInt 0)))),
                   ((Cl.thermostat, 0x4161), .num (l.getD 1 (.ofInt 0))),
                   ((Cl.thermostat, 0x4162), .num ((l.getD 0 (.ofInt 0)).mulInt 100))] := by
            intro t
            simp [Moes.update_attribute, Moes.first_chain, Moes.schedule_change, hl,
              writeChain, updN, List.getD]
          rw [hrew, hrew]
          exact writeChain_idem _ _
        · intro k
          simp [Moes.update_attribute, Moes.first_chain, Moes.schedule_change, hl,
            updN, upd, cget_cset]
          split_ifs <;> intros <;> first | rfl | simp_all
      · by_cases hl : 18 ≤ l.length
        · have hrew : ∀ t : DevState,
              Moes.update_attribute t MOES_SCHEDULE_WEEKEND_ATTR (.raw l)
                = writeChain t
                  [((Cl.tuyaManuf, MOES_SCHEDULE_WEEKEND_ATTR), .raw l),
                   ((Cl.thermostat, 0x4210), .num (Moes.mask63 (l.getD 17 (.ofInt 0)))),
                   ((Cl.thermostat, 0x4211), .num (l.getD 16 (.ofInt 0))),
                   ((Cl.thermostat, 0x4212), .num ((l.getD 15 (.ofInt 0)).mulInt 100)),
                   ((Cl.thermostat, 0x4220), .num (Moes.mask63 (l.getD 14 (.ofInt 0)))),
                   ((Cl.thermostat, 0x4221), .num (l.getD 13 (.ofInt 0))),
                   ((Cl.thermostat, 0x4222), .num ((l.getD 12 (.ofInt 0)).mulInt 100)),
                   ((Cl.thermostat, 0x4230), .num (Moes.mask63 (l.getD 11 (.ofInt 0)))),
                   ((Cl.thermostat, 0x4231), .num (l.getD 10 (.ofInt 0))),
                   ((Cl.thermostat, 0x4232), .num ((l.getD 9 (.ofInt 0)).mulInt 100)),
                   ((Cl.thermostat, 0x4240), .num (Moes.mask63 (l.getD 8 (.ofInt 0)))),
                   ((Cl.thermostat, 0x4241), .num (l.getD 7 (.ofInt 0))),
                   ((Cl.thermostat, 0x4242), .num ((l.getD 6 (.ofInt 0)).mulInt 100)),
                   ((Cl.thermostat, 0x4250), .num (Moes.mask63 (l.getD 5 (.ofInt 0)))),
                   ((Cl.thermostat, 0x4251), .num (l.getD 4 (.ofInt 0))),
                   ((Cl.thermostat, 0x4252), .num ((l.getD 3 (.ofInt 0)).mulInt 100)),
                   ((Cl.thermostat, 0x4260), .num (Moes.mask63 (l.getD 2 (.ofInt 0)))),
                   ((Cl.thermostat, 0x4261), .num (l.getD 1 (.ofInt 0))),
                   ((Cl.thermostat, 0x4262), .num ((l.getD 0 (.ofInt 0)).mulInt 100))] := by
            intro t
            simp [Moes.update_attribute, Moes.first_chain, Moes.schedule_change, hl,
              writeChain, updN, List.getD]
          rw [hrew, hrew]
          exact writeChain_idem _ _
        · intro k
          simp [Moes.update_attribute, Moes.first_chain, Moes.schedule_change, hl,
            updN, upd, cget_cset]
          split_ifs <;> intros <;> first | rfl | simp_all
    by_cases e16 : aid = MOES_WINDOW_DETECT_ATTR
    · subst e16
      rcases l with _ | ⟨v0, _ | ⟨v1, _ | ⟨v2, rest⟩⟩⟩ <;>
        · intro k
          simp [Moes.update_attribute, Moes.first_chain, Moes.window_detect_change,
            updN, upd, cget_cset]
          split_ifs <;> intros <;> first | rfl | simp_all
    -- every other branch ignores a raw payload (the handler raises, the bus catches)
    by_cases e1 : aid = MOES_TEMPERATURE_ATTR
    · subst e1
      intro k
      simp [Moes.update_attribute, Moes.first_chain, Moes.onNum, updN, upd, cget_cset]
      split_ifs <;> intros <;> first | rfl | simp_all
    by_cases e2 : aid = MOES_TARGET_TEMP_ATTR
    · subst e2
      intro k
      simp [Moes.update_attribute, Moes.first_chain, Moes.onNum, updN, upd, cget_cset]
      split_ifs <;> intros <;> first | rfl | simp_all
    by_cases e3 : aid = MOES_AWAY_TEMP_ATTR
    · subst e3
      intro k
      simp [Moes.update_attribute, Moes.first_chain, Moes.onNum, updN, upd, cget_cset]
      split_ifs <;> intros <;> first | rfl | simp_all
    by_cases e4 : aid = MOES_COMFORT_TEMP_ATTR
    · subst e4
      intro k
      simp [Moes.update_attribute, Moes.first_chain, Moes.onNum, updN, upd, cget_cset]
      split_ifs <;> intros <;> first | rfl | simp_all
    by_cases e5 : aid = MOES_ECO_TEMP_ATTR
    · subst e5
      intro k
      simp [Moes.update_attribute, Moes.first_chain, Moes.onNum, updN, upd, cget_cset]
      split_ifs <;> intros <;> first | rfl | simp_all
    by_cases e6 : aid = MOES_TEMP_CALIBRATION_ATTR
    · subst e6
      intro k
      simp [Moes.update_attribute, Moes.first_chain, Moes.onNum, updN, upd, cget_cset]
      split_ifs <;> intros <;> first | rfl | simp_all
    by_cases e7 : aid = MOES_MIN_TEMPERATURE_ATTR
    · subst e7
      intro k
      simp [Moes.update_attribute, Moes.first_chain, Moes.onNum, updN, upd, cget_cset]
      split_ifs <;> intros <;> first | rfl | simp_all
    by_cases e8 : aid = MOES_MAX_TEMPERATURE_ATTR
    · subst e8
      intro k
      simp [Moes.update_attribute, Moes.first_chain, Moes.onNum, updN, upd, cget_cset]
      split_ifs <;> intros <;> first | rfl | simp_all
    by_cases e9 : aid = MOES_VALVE_STATE_ATTR
    · subst e9
      intro k
      simp [Moes.update_attribute, Moes.first_chain, Moes.onNum, updN, upd, cget_cset]
      split_ifs <;> intros <;> first | rfl | simp_all
    by_cases e10 : aid = MOES_AWAY_DAYS_ATTR
    · subst e10
      intro k
      simp [Moes.update_attribute, Moes.first_chain, Moes.onNum, updN, upd, cget_cset]
      split_ifs <;> intros <;> first | rfl | simp_all
    by_cases e11 : aid = MOES_BOOST_TIME_ATTR
    · subst e11
      intro k
      simp [Moes.update_attribute, Moes.first_chain, Moes.onNum, updN, upd, cget_cset]
      split_ifs <;> intros <;> first | rfl | simp_all
    by_cases e12 : aid = MOES_MODE_ATTR
    · subst e12
      intro k
      simp [Moes.update_attribute, Moes.first_chain, Moes.onNum, updN, upd, cget_cset]
      split_ifs <;> intros <;> first | rfl | simp_all
    by_cases e13 : aid = MOES_WEEK_FORMAT_ATTR
    · subst e13
      intro k
      simp [Moes.update_attribute, Moes.first_chain, Moes.onNum, updN, upd, cget_cset]
      split_ifs <;> intros <;> first | rfl | simp_all
    by_cases e14 : aid = MOES_FORCE_VALVE_ATTR
    · subst e14
      intro k
      simp [Moes.update_attribute, Moes.first_chain, Moes.onNum, updN, upd, cget_cset]
      split_ifs <;> intros <;> first | rfl | simp_all
    by_cases e17 : aid = MOES_CHILD_LOCK_ATTR
    · subst e17
      intro k
      simp [Moes.update_attribute, Moes.first_chain, Moes.onNum, updN, upd, cget_cset]
      split_ifs <;> intros <;> first | rfl | simp_all
    by_cases e18 : aid = MOES_AUTO_LOCK_ATTR
    · subst e18
      intro k
      simp [Moes.update_attribute, Moes.first_chain, Moes.onNum, updN, upd, cget_cset]
      split_ifs <;> intros <;> first | rfl | simp_all
    by_cases e19 : aid = MOES_BATTERY_LOW_ATTR
    · subst e19
      intro k
      simp [Moes.update_attribute, Moes.first_chain, Moes.onNum, updN, upd, cget_cset]
      split_ifs <;> intros <;> first | rfl | simp_all
    intro k
    simp only [Moes.update_attribute, Moes.first_chain,
      if_neg e1, if_neg e2, if_neg e3, if_neg e4, if_neg e5, if_neg e6, if_neg e7,
      if_neg e8, if_neg e9, if_neg e10, if_neg e11, if_neg e12, if_neg e13, if_neg e14,
      if_neg e15, if_neg e16, if_neg e17, if_neg e18, if_neg e19, updN, upd, cget_cset]
    split_ifs <;> intros <;> first | rfl | simp_all

/-- C7: delivering the same inbound datapoint report twice with the same
payload leaves the attribute caches of every synthetic cluster in the same
final state as delivering it once, for both the Saswell and the Moes update
dispatchers: every cache entry written by the fan-out is a last-value-wins
function of the reported value and the prior cache state. -/
theorem dispatcher_idempotent :
    ∀ (s : DevState) (aid : Nat) (v : PyQ) (mv : CVal),
      cequiv (Saswell.update_attribute (Saswell.update_attribute s aid v) aid v).cache
             (Saswell.update_attribute s aid v).cache ∧
      cequiv (Moes.update_attribute (Moes.update_attribute s aid mv) aid mv).cache
             (Moes.update_attribute s aid mv).cache :=
  fun s aid v mv => ⟨saswell_idem s aid v, moes_idem s aid mv⟩
